import Mathlib

/-!
# Verification of the MLOps-decision rule engine and decision service

Shallow embedding of the JavaScript sources of the decision platform:

* `src/rules/engine.js` — `OPERATORS`, `RuleEngine.getValue`,
  `RuleEngine.evaluateCondition`, `RuleEngine.evaluate`, `RuleEngine.loadRules`;
* `src/decisionService.js` (bundled with `server.js`) — `DecisionService.decide`,
  `validateInput`, `buildResponse`, `buildErrorResponse`, `reloadRules`.

JavaScript runtime values are modelled by the inductive type `Value`
(numbers restricted to integers, which covers every number appearing in the
claims).  Property access models own properties of plain objects, the
`length`/index properties of strings and arrays, and the inherited
prototype-chain members of the container types reachable from YAML/JSON
data (`Object.prototype`, `Array.prototype`, `String.prototype`,
`Number.prototype`, `Boolean.prototype`, tabulated in full); properties of
the opaque native values so obtained are over-approximated as further
opaque natives, so the model never classifies a value the program resolves
as missing.  Code that can throw a `TypeError` is embedded in the
`Except String` monad; the error strings are modelled, not the literal V8
message text.
-/

/-- A JavaScript runtime value as it can occur in the decision pipeline:
`undefined`, `null`, booleans, (integer) numbers, strings, arrays and plain
objects come from the YAML configuration and the JSON request body;
`native s` is an opaque platform value reached only through prototype-chain
property reads (a builtin function, or a builtin prototype object reached
through `__proto__`), carrying the string `String(v)` produces for it. -/
inductive Value where
  | undefined : Value
  | null : Value
  | bool : Bool → Value
  | num : Int → Value
  | str : String → Value
  | arr : List Value → Value
  | obj : List (String × Value) → Value
  | native : String → Value
deriving Repr

mutual

/-- Decidable structural equality on `Value` (used only to state theorems;
JS `===` on objects is reference equality and is modelled separately). -/
def Value.beq : Value → Value → Bool
  | .undefined, .undefined => true
  | .null, .null => true
  | .bool a, .bool b => a == b
  | .num a, .num b => a == b
  | .str a, .str b => a == b
  | .arr a, .arr b => Value.beqList a b
  | .obj a, .obj b => Value.beqFields a b
  | .native a, .native b => a == b
  | _, _ => false

def Value.beqList : List Value → List Value → Bool
  | [], [] => true
  | a :: as, b :: bs => Value.beq a b && Value.beqList as bs
  | _, _ => false

def Value.beqFields : List (String × Value) → List (String × Value) → Bool
  | [], [] => true
  | (ka, va) :: as, (kb, vb) :: bs => ka == kb && Value.beq va vb && Value.beqFields as bs
  | _, _ => false

end

mutual

theorem Value.beq_eq : ∀ a b : Value, Value.beq a b = true → a = b
  | .undefined, .undefined, _ => rfl
  | .null, .null, _ => rfl
  | .bool a, .bool b, h => by simp [Value.beq] at h; simp [h]
  | .num a, .num b, h => by simp [Value.beq] at h; simp [h]
  | .str a, .str b, h => by simp [Value.beq] at h; simp [h]
  | .arr a, .arr b, h => by
      simp only [Value.beq] at h
      exact congrArg Value.arr (Value.beqList_eq a b h)
  | .obj a, .obj b, h => by
      simp only [Value.beq] at h
      exact congrArg Value.obj (Value.beqFields_eq a b h)
  | .native a, .native b, h => by simp [Value.beq] at h; simp [h]

theorem Value.beqList_eq : ∀ a b : List Value, Value.beqList a b = true → a = b
  | [], [], _ => rfl
  | a :: as, b :: bs, h => by
      simp only [Value.beqList, Bool.and_eq_true] at h
      have h1 := Value.beq_eq a b h.1
      have h2 := Value.beqList_eq as bs h.2
      simp [h1, h2]

theorem Value.beqFields_eq : ∀ a b : List (String × Value), Value.beqFields a b = true → a = b
  | [], [], _ => rfl
  | (ka, va) :: as, (kb, vb) :: bs, h => by
      simp only [Value.beqFields, Bool.and_eq_true] at h
      have h1 : ka = kb := by simpa using h.1.1
      have h2 := Value.beq_eq va vb h.1.2
      have h3 := Value.beqFields_eq as bs h.2
      simp [h1, h2, h3]

end

mutual

theorem Value.beq_refl : ∀ a : Value, Value.beq a a = true
  | .undefined => rfl
  | .null => rfl
  | .bool a => by simp [Value.beq]
  | .num a => by simp [Value.beq]
  | .str a => by simp [Value.beq]
  | .arr a => by simp only [Value.beq]; exact Value.beqList_refl a
  | .obj a => by simp only [Value.beq]; exact Value.beqFields_refl a
  | .native a => by simp [Value.beq]

theorem Value.beqList_refl : ∀ a : List Value, Value.beqList a a = true
  | [] => rfl
  | a :: as => by
      simp only [Value.beqList, Bool.and_eq_true]
      exact ⟨Value.beq_refl a, Value.beqList_refl as⟩

theorem Value.beqFields_refl : ∀ a : List (String × Value), Value.beqFields a a = true
  | [] => rfl
  | (ka, va) :: as => by
      simp only [Value.beqFields, Bool.and_eq_true]
      exact ⟨⟨by simp, Value.beq_refl va⟩, Value.beqFields_refl as⟩

end

instance : DecidableEq Value := fun a b =>
  if h : Value.beq a b = true then
    .isTrue (Value.beq_eq a b h)
  else
    .isFalse (fun hab => h (hab ▸ Value.beq_refl a))

/-- Strict equality with `undefined` (`v === undefined`). -/
def isUndefinedV : Value → Bool
  | .undefined => true
  | _ => false

/-- JavaScript truthiness of a `Value` (`undefined`, `null`, `false`, `0`, and
`""` are falsy; every array and object is truthy). -/
def jsTruthy : Value → Bool
  | .undefined => false
  | .null => false
  | .bool b => b
  | .num n => n != 0
  | .str s => s != ""
  | .arr _ => true
  | .obj _ => true
  | .native _ => true

/-- Own-property lookup in the field list of a plain object; an absent key
reads as `undefined`. -/
def lookupField : List (String × Value) → String → Value
  | [], _ => .undefined
  | (k', v) :: rest, k => if k' = k then v else lookupField rest k

/-- Parse a non-empty all-digit character list as a natural number
(leading zeros allowed, as in JS `ToNumber`). -/
def parseNatChars (cs : List Char) : Option Nat :=
  match cs with
  | [] => none
  | _ =>
      cs.foldl
        (fun acc c =>
          match acc with
          | none => none
          | some n => if c.isDigit then some (n * 10 + (c.toNat - '0'.toNat)) else none)
        (some 0)

/-- A string that is the canonical decimal representation of an array/string
index (JS exposes element `i` under the property key `toString i` only, so
`"01"` or `"+1"` are not index keys): all digits with no leading zero. -/
def canonIndex (k : String) : Option Nat :=
  match k.toList with
  | [] => none
  | c :: cs =>
      if c = '0' ∧ cs ≠ [] then none
      else parseNatChars (c :: cs)

/-- Own-property lookup distinguishing a present key (even one holding
`undefined`, which shadows the prototype) from an absent one. -/
def lookupOwn : List (String × Value) → String → Option Value
  | [], _ => none
  | (k', v) :: rest, k => if k' = k then some v else lookupOwn rest k

/-- A native builtin method value, carrying the string Node produces for
`String(f)`. -/
def nativeFn (n : String) : Value :=
  .native ("function " ++ n ++ "() { [native code] }")

/-- The own string-keyed members of `Object.prototype` (the complete list
for Node 22).  Reading `__proto__` on a plain object yields
`Object.prototype` itself, which stringifies as `"[object Object]"`. -/
def objectProtoFields : List (String × Value) :=
  [("__proto__", .native "[object Object]"),
   ("constructor", nativeFn "Object")] ++
  (["hasOwnProperty", "isPrototypeOf", "propertyIsEnumerable", "toLocaleString",
    "toString", "valueOf", "__defineGetter__", "__defineSetter__",
    "__lookupGetter__", "__lookupSetter__"].map (fun n => (n, nativeFn n)))

/-- The own string-keyed method members of `Array.prototype` (Node 22).
Reading `__proto__` on an array yields `Array.prototype`, an (empty) array
object that stringifies as `""`; `length` on an instance shadows the
prototype's own `length`. -/
def arrayProtoFields : List (String × Value) :=
  [("__proto__", .native ""),
   ("constructor", nativeFn "Array")] ++
  (["at", "concat", "copyWithin", "entries", "every", "fill", "filter", "find",
    "findIndex", "findLast", "findLastIndex", "flat", "flatMap", "forEach",
    "includes", "indexOf", "join", "keys", "lastIndexOf", "map", "pop", "push",
    "reduce", "reduceRight", "reverse", "shift", "slice", "some", "sort",
    "splice", "toLocaleString", "toReversed", "toSorted", "toSpliced",
    "toString", "unshift", "values", "with"].map (fun n => (n, nativeFn n)))

/-- The own string-keyed method members of `String.prototype` (Node 22,
including the legacy HTML helpers and the `trimLeft`/`trimRight` aliases).
`String.prototype` itself wraps `""`. -/
def stringProtoFields : List (String × Value) :=
  [("__proto__", .native ""),
   ("constructor", nativeFn "String")] ++
  (["anchor", "at", "big", "blink", "bold", "charAt", "charCodeAt",
    "codePointAt", "concat", "endsWith", "fixed", "fontcolor", "fontsize",
    "includes", "indexOf", "isWellFormed", "italics", "lastIndexOf", "link",
    "localeCompare", "match", "matchAll", "normalize", "padEnd", "padStart",
    "repeat", "replace", "replaceAll", "search", "slice", "small", "split",
    "startsWith", "strike", "sub", "substr", "substring", "sup",
    "toLocaleLowerCase", "toLocaleUpperCase", "toLowerCase", "toString",
    "toUpperCase", "toWellFormed", "trim", "trimEnd", "trimLeft", "trimRight",
    "trimStart", "valueOf"].map (fun n => (n, nativeFn n)))

/-- The own string-keyed members of `Number.prototype` (Node 22);
`Number.prototype` wraps `0`. -/
def numberProtoFields : List (String × Value) :=
  [("__proto__", .native "0"),
   ("constructor", nativeFn "Number")] ++
  (["toExponential", "toFixed", "toLocaleString", "toPrecision", "toString",
    "valueOf"].map (fun n => (n, nativeFn n)))

/-- The own string-keyed members of `Boolean.prototype` (Node 22);
`Boolean.prototype` wraps `false`. -/
def booleanProtoFields : List (String × Value) :=
  [("__proto__", .native "false"),
   ("constructor", nativeFn "Boolean")] ++
  (["toString", "valueOf"].map (fun n => (n, nativeFn n)))

/-- Walk a prototype chain given as a list of member tables; an absent key
reads as `undefined`. -/
def protoChain (tables : List (List (String × Value))) (k : String) : Value :=
  match tables with
  | [] => .undefined
  | t :: ts =>
      match lookupOwn t k with
      | some v => v
      | none => protoChain ts k

/-- Embedding of the JS property read `current[key]` for the values this
program can reach: own fields of plain objects, `length`/index properties of
arrays and strings, then the inherited prototype-chain members of the
container's type.  Properties of an opaque native container are
over-approximated by a further opaque native (never `undefined`): the model
does not track which properties of builtin functions and prototype objects
exist, and errs on the side of never classifying a program-present value as
missing — no claim depends on a path through a native value.  Reading a
property of `undefined`/`null` throws in JS; every call site guards with a
truthiness or nullish check first, so those cases return `undefined` here. -/
def getProp : Value → String → Value
  | .obj fields, k =>
      match lookupOwn fields k with
      | some v => v
      | none => protoChain [objectProtoFields] k
  | .arr xs, k =>
      if k = "length" then .num xs.length
      else
        match canonIndex k with
        | some i =>
            match xs.get? i with
            | some v => v
            | none => protoChain [arrayProtoFields, objectProtoFields] k
        | none => protoChain [arrayProtoFields, objectProtoFields] k
  | .str s, k =>
      if k = "length" then .num s.toList.length
      else
        match canonIndex k with
        | some i =>
            match s.toList.get? i with
            | some c => .str (String.mk [c])
            | none => protoChain [stringProtoFields, objectProtoFields] k
        | none => protoChain [stringProtoFields, objectProtoFields] k
  | .num _, k => protoChain [numberProtoFields, objectProtoFields] k
  | .bool _, k => protoChain [booleanProtoFields, objectProtoFields] k
  | .native _, _ => .native "[opaque native property]"
  | _, _ => .undefined

/-- `"a.b".split(".")` on the underlying character list: `""` splits to
`[""]`, and consecutive dots produce empty segments, exactly as in JS. -/
def splitDot : List Char → List (List Char)
  | [] => [[]]
  | c :: cs =>
      if c = '.' then [] :: splitDot cs
      else
        match splitDot cs with
        | seg :: rest => (c :: seg) :: rest
        | [] => [[c]]

/-- JS `path.split(".")`. -/
def jsSplitDot (s : String) : List String :=
  (splitDot s.toList).map (fun l => String.mk l)

/-- `RuleEngine.getValue(obj, path)` for a string `path`
(engine.js lines 107–111): split on `"."` and reduce with
`current && current[key] !== undefined ? current[key] : undefined`. -/
def resolvePath (input : Value) (path : String) : Value :=
  (jsSplitDot path).foldl
    (fun current key =>
      if jsTruthy current && !(isUndefinedV (getProp current key)) then getProp current key
      else .undefined)
    input

mutual

/-- JS `String(v)` on the modelled values (arrays join their elements with
`","`, `null`/`undefined` elements joining as `""`; every plain object
stringifies as `"[object Object]"`). -/
def valueToString : Value → String
  | .undefined => "undefined"
  | .null => "null"
  | .bool true => "true"
  | .bool false => "false"
  | .num n => toString n
  | .str s => s
  | .arr xs => String.intercalate "," (elemStrings xs)
  | .obj _ => "[object Object]"
  | .native d => d

/-- The strings contributed by array elements under `Array.prototype.join`. -/
def elemStrings : List Value → List String
  | [] => []
  | v :: vs =>
      (match v with
       | .undefined => ""
       | .null => ""
       | v' => valueToString v') :: elemStrings vs

end

/-- Whitespace for the purposes of JS `ToNumber` string trimming. -/
def isJsSpace (c : Char) : Bool :=
  c = ' ' || c = '\t' || c = '\n' || c = '\r'

/-- JS `ToNumber` on a string, restricted to optionally-signed decimal
integer numerals (the only numeric strings this development needs);
whitespace-only strings convert to `0`, anything else to NaN (`none`). -/
def jsStringToNumber (s : String) : Option Int :=
  let t := ((s.toList.dropWhile isJsSpace).reverse.dropWhile isJsSpace).reverse
  match t with
  | [] => some 0
  | '-' :: rest => (parseNatChars rest).map (fun n => -(n : Int))
  | '+' :: rest => (parseNatChars rest).map (fun n => (n : Int))
  | cs => (parseNatChars cs).map (fun n => (n : Int))

/-- JS `ToPrimitive` with number hint on the modelled values: primitives
are themselves; arrays and plain objects inherit `Object.prototype.valueOf`
(which returns the object, not a primitive), so their `toString` applies —
arrays join their elements, plain objects give `"[object Object]"` — and a
native builtin stringifies as its display string. -/
def toPrimitive : Value → Value
  | .arr xs => .str (valueToString (.arr xs))
  | .obj _ => .str "[object Object]"
  | .native d => .str d
  | v => v

/-- JS `ToNumber` on an already-primitive value (`none` = NaN): `null`
converts to `0`, booleans to `0`/`1`. -/
def toNumberPrim : Value → Option Int
  | .undefined => none
  | .null => some 0
  | .bool b => some (if b then 1 else 0)
  | .num n => some n
  | .str s => jsStringToNumber s
  | _ => none

/-- JS `ToNumber`: `ToPrimitive` followed by the primitive conversion. -/
def toNumber (v : Value) : Option Int :=
  toNumberPrim (toPrimitive v)

/-- JS strict equality `===`.  On arrays, objects and functions `===` is
reference equality; the left operand always comes from the request (or a
prototype read) and the right operand from the rule configuration, so two
structured or native operands are never the same reference in the pipeline
and the catch-all `false` is exact for every reachable comparison. -/
def jsStrictEq : Value → Value → Bool
  | .undefined, .undefined => true
  | .null, .null => true
  | .bool a, .bool b => a == b
  | .num a, .num b => a == b
  | .str a, .str b => a == b
  | _, _ => false

/-- The JS abstract relational comparison underlying `<`, `>`, `<=`, `>=`:
both operands are converted with `ToPrimitive` (number hint); if *both*
primitives are strings the comparison is lexicographic by code unit —
which is how `({}) > ""` and `({}) <= ({})` hold in JS — and otherwise both
primitives go through `ToNumber`, `none` (NaN) making the comparison
undefined. -/
def jsCompare (a b : Value) : Option Ordering :=
  match toPrimitive a, toPrimitive b with
  | .str s, .str t => some (compare s t)
  | pa, pb =>
      match toNumberPrim pa, toNumberPrim pb with
      | some x, some y => some (compare x y)
      | _, _ => none

/-- JS `a > b` (engine.js `gt`). -/
def jsGtB (a b : Value) : Bool :=
  match jsCompare a b with
  | some .gt => true
  | _ => false

/-- JS `a >= b` (engine.js `gte`): false when the comparison is undefined. -/
def jsGeB (a b : Value) : Bool :=
  match jsCompare a b with
  | some .gt => true
  | some .eq => true
  | _ => false

/-- JS `a < b` (engine.js `lt`). -/
def jsLtB (a b : Value) : Bool :=
  match jsCompare a b with
  | some .lt => true
  | _ => false

/-- JS `a <= b` (engine.js `lte`): false when the comparison is undefined. -/
def jsLeB (a b : Value) : Bool :=
  match jsCompare a b with
  | some .lt => true
  | some .eq => true
  | _ => false

/-- engine.js `in`: `Array.isArray(b) && b.includes(a)`
(`includes` uses SameValueZero, which on NaN-free values is `===`). -/
def inOp (a b : Value) : Bool :=
  match b with
  | .arr xs => xs.any (fun x => jsStrictEq x a)
  | _ => false

/-- engine.js `nin`: `Array.isArray(b) && !b.includes(a)`. -/
def ninOp (a b : Value) : Bool :=
  match b with
  | .arr xs => !(xs.any (fun x => jsStrictEq x a))
  | _ => false

/-- engine.js `exists`: present-and-non-null when the operand is literally
`true`, otherwise the negation. -/
def existsOp (a b : Value) : Bool :=
  let ex := !(jsStrictEq a .undefined) && !(jsStrictEq a .null)
  if jsStrictEq b (.bool true) then ex else !ex

/-- engine.js `regex`: `new RegExp(b).test(String(a))` with a `try`/`catch`
returning `false` on an invalid pattern.  The platform regex engine is
abstracted as `rt pattern subject`, `none` meaning the `RegExp` constructor
threw.  `new RegExp(undefined)` builds the empty pattern; any other
non-string pattern operand is coerced with `String`. -/
def regexOp (rt : String → String → Option Bool) (a b : Value) : Bool :=
  let pattern := match b with
    | .undefined => ""
    | v => valueToString v
  match rt pattern (valueToString a) with
  | some r => r
  | none => false

/-- The closed operator registry `OPERATORS` of engine.js (lines 27–49).
The model returns `none` ("unknown operator") for every name outside the
registry; in JS, `OPERATORS[op]` is itself a full property lookup, so an
`op` naming an inherited `Object.prototype` member (e.g. `"toString"`)
would bypass the unknown-operator branch and call that builtin as the
comparator — a known cut of the model: no claim quantifies over
unregistered operator names. -/
def opLookup (rt : String → String → Option Bool) : Value → Option (Value → Value → Bool)
  | .str "eq" => some (fun a b => jsStrictEq a b)
  | .str "neq" => some (fun a b => !(jsStrictEq a b))
  | .str "gt" => some jsGtB
  | .str "gte" => some jsGeB
  | .str "lt" => some jsLtB
  | .str "lte" => some jsLeB
  | .str "in" => some inOp
  | .str "nin" => some ninOp
  | .str "exists" => some existsOp
  | .str "regex" => some (regexOp rt)
  | _ => none

/-- Modelled `TypeError` message for reading a property of `undefined`/`null`
(thrown by `condition.operator` when a condition node is nullish). -/
def condReadError : String := "TypeError: Cannot read properties of a nullish condition"

/-- Modelled `TypeError` message for `path.split` when the leaf `field` is not
a string (engine.js line 108 throws there before the operator is looked up). -/
def splitTypeError : String := "TypeError: path.split is not a function"

/-- The looked-up value of an object field is smaller than the object. -/
theorem sizeOf_lookupField_lt (fields : List (String × Value)) (k : String) :
    sizeOf (lookupField fields k) < 1 + sizeOf fields := by
  induction fields with
  | nil => simp [lookupField]
  | cons hd tl ih =>
      obtain ⟨k', v⟩ := hd
      simp only [lookupField]
      split
      · simp only [List.cons.sizeOf_spec, Prod.mk.sizeOf_spec]
        omega
      · have := ih
        simp only [List.cons.sizeOf_spec, Prod.mk.sizeOf_spec]
        omega

/-- `RuleEngine.getValue(input, field)` as called from `evaluateCondition`:
the JS source does `field.split(".")`, which throws a `TypeError` whenever
`field` is not a string (in particular when the `field` key is absent). -/
def getValueE (input fieldv : Value) : Except String Value :=
  match fieldv with
  | .str path => .ok (resolvePath input path)
  | _ => .error splitTypeError

/-- The leaf branch of `RuleEngine.evaluateCondition` (engine.js lines
135–152): destructure `field`/`op`/`value`, resolve the field (which may
throw), then look up the operator — unknown operators are "not a match".
The `try`/`catch` around `compareFn` never fires on the modelled values
(every registered operator is a total function there). -/
def evaluateLeaf (rt : String → String → Option Bool) (cond input : Value) :
    Except String Bool :=
  let fieldv := getProp cond "field"
  let opv := getProp cond "op"
  let valuev := getProp cond "value"
  match getValueE input fieldv with
  | .error e => .error e
  | .ok actualValue =>
      match opLookup rt opv with
      | none => .ok false
      | some compareFn => .ok (compareFn actualValue valuev)

mutual

/-- `RuleEngine.evaluateCondition` (engine.js lines 117–152).  A nullish
condition node throws on the `condition.operator` read.  A node with a truthy
`operator` is a compound: a non-array `operands` is "not a match", otherwise
**all** operands are evaluated first (`operands.map`, so an operand that
throws propagates), then `AND`/`OR` combine the results and any other truthy
operator token yields `false`.  A node with a falsy `operator` is treated as
a leaf. -/
def evaluateCondition (rt : String → String → Option Bool) (cond input : Value) :
    Except String Bool :=
  match cond with
  | .undefined => .error condReadError
  | .null => .error condReadError
  | .obj fields =>
      if jsTruthy (lookupField fields "operator") then
        match h : lookupField fields "operands" with
        | .arr ops =>
            match evaluateOperands rt ops input with
            | .error e => .error e
            | .ok results =>
                match lookupField fields "operator" with
                | .str "AND" => .ok (results.all (fun r => r == true))
                | .str "OR" => .ok (results.any (fun r => r == true))
                | _ => .ok false
        | _ => .ok false
      else evaluateLeaf rt (.obj fields) input
  | .bool b => evaluateLeaf rt (.bool b) input
  | .num n => evaluateLeaf rt (.num n) input
  | .str s => evaluateLeaf rt (.str s) input
  | .arr xs => evaluateLeaf rt (.arr xs) input
  | .native d => evaluateLeaf rt (.native d) input
termination_by sizeOf cond
decreasing_by
  simp_wf
  have hlt := sizeOf_lookupField_lt fields "operands"
  rw [h] at hlt
  simp only [Value.arr.sizeOf_spec] at hlt
  omega

/-- `condition.operands.map((op) => this.evaluateCondition(op, input))`:
left-to-right evaluation of every operand, the first thrown error
propagating. -/
def evaluateOperands (rt : String → String → Option Bool) (l : List Value)
    (input : Value) : Except String (List Bool) :=
  match l with
  | [] => .ok []
  | c :: cs =>
      match evaluateCondition rt c input with
      | .error e => .error e
      | .ok b =>
          match evaluateOperands rt cs input with
          | .error e => .error e
          | .ok bs => .ok (b :: bs)
termination_by sizeOf l
decreasing_by
  all_goals simp_wf <;> omega

end

instance {ε α : Type} [DecidableEq ε] [DecidableEq α] : DecidableEq (Except ε α) := fun a b =>
  match a, b with
  | .error e, .error f => if h : e = f then .isTrue (by simp [h]) else .isFalse (by simp [h])
  | .ok x, .ok y => if h : x = y then .isTrue (by simp [h]) else .isFalse (by simp [h])
  | .error _, .ok _ => .isFalse (by simp)
  | .ok _, .error _ => .isFalse (by simp)

/-- Unfolding equation: a nullish condition node throws. -/
theorem evaluateCondition_nullish (rt : String → String → Option Bool) (input : Value) :
    evaluateCondition rt .undefined input = .error condReadError ∧
    evaluateCondition rt .null input = .error condReadError := by
  constructor <;> rw [evaluateCondition]

/-- Unfolding equation of `evaluateCondition` at an object node. -/
theorem evaluateCondition_obj (rt : String → String → Option Bool)
    (fields : List (String × Value)) (input : Value) :
    evaluateCondition rt (.obj fields) input =
      if jsTruthy (lookupField fields "operator") then
        match h : lookupField fields "operands" with
        | .arr ops =>
            match evaluateOperands rt ops input with
            | .error e => .error e
            | .ok results =>
                match lookupField fields "operator" with
                | .str "AND" => .ok (results.all (fun r => r == true))
                | .str "OR" => .ok (results.any (fun r => r == true))
                | _ => .ok false
        | _ => .ok false
      else evaluateLeaf rt (.obj fields) input := by
  rw [evaluateCondition]

/-- Unfolding equations of `evaluateOperands`. -/
theorem evaluateOperands_nil (rt : String → String → Option Bool) (input : Value) :
    evaluateOperands rt [] input = .ok [] := by rw [evaluateOperands]

/-- `operands.map` evaluates the head condition, then the remaining ones. -/
theorem evaluateOperands_cons (rt : String → String → Option Bool) (c : Value)
    (cs : List Value) (input : Value) :
    evaluateOperands rt (c :: cs) input =
      match evaluateCondition rt c input with
      | .error e => .error e
      | .ok b =>
          match evaluateOperands rt cs input with
          | .error e => .error e
          | .ok bs => .ok (b :: bs) := by rw [evaluateOperands]

/-!
## The rule engine (`RuleEngine`, engine.js)
-/

/-- A raw rule entry as read from the parsed configuration: the engine only
ever reads the six properties below, so a (non-nullish) entry is represented
by their values (an absent property reads as `undefined`). -/
structure RawRule where
  id : Value
  name : Value
  priority : Value
  condition : Value
  outcome : Value
  enabled : Value
deriving Repr, DecidableEq

/-- Projection of a non-nullish configuration entry to the properties the
engine reads. -/
def toRawRule (entry : Value) : RawRule :=
  { id := getProp entry "id"
    name := getProp entry "name"
    priority := getProp entry "priority"
    condition := getProp entry "condition"
    outcome := getProp entry "outcome"
    enabled := getProp entry "enabled" }

/-- The `matchedRule` object `{id, name, priority}` of an `evaluate` result. -/
structure MatchedRule where
  id : Value
  name : Value
  priority : Value
deriving Repr, DecidableEq

/-- The result of `RuleEngine.evaluate` (timing field omitted: wall-clock
time is outside the model). -/
structure EvalResult where
  outcome : Value
  matchedRule : Option MatchedRule
  evaluationPath : List Value
deriving Repr, DecidableEq

/-- The mutable state of a `RuleEngine` instance: `this.rules`,
`this.defaults`, `this.aiConfig`, `this.metadata`. -/
structure EngineState where
  rules : List RawRule
  defaults : Value
  aiConfig : Value
  metadata : Value
deriving Repr, DecidableEq

/-- JS `typeof v === "object"` (true for `null`, arrays and objects). -/
def typeofObject : Value → Bool
  | .null => true
  | .arr _ => true
  | .obj _ => true
  | _ => false

/-- `this.defaults.no_match_outcome`. -/
def defaultOutcome (st : EngineState) : Value :=
  getProp st.defaults "no_match_outcome"

/-- The `EvaluationAttempt` object pushed onto `evaluationPath` for each rule
considered: `{ruleId, ruleName, matched}`. -/
def attemptOf (r : RawRule) (m : Bool) : Value :=
  .obj [("ruleId", r.id), ("ruleName", r.name), ("matched", .bool m)]

/-- The `for (const rule of this.rules)` loop of `RuleEngine.evaluate`
(engine.js lines 173–194), with the evaluation path accumulated so far:
evaluate the condition (a thrown error propagates), push the attempt, and
return on the first match. -/
def evalRules (rt : String → String → Option Bool) (dflt : Value) (input : Value) :
    List RawRule → List Value → Except String EvalResult
  | [], path => .ok { outcome := dflt, matchedRule := none, evaluationPath := path }
  | r :: rs, path =>
      match evaluateCondition rt r.condition input with
      | .error e => .error e
      | .ok m =>
          let path' := path ++ [attemptOf r m]
          if m then
            .ok { outcome := r.outcome
                  matchedRule := some { id := r.id, name := r.name, priority := r.priority }
                  evaluationPath := path' }
          else evalRules rt dflt input rs path'

/-- `RuleEngine.evaluate` (engine.js lines 158–203): an input that is not a
truthy value of `typeof "object"` short-circuits to the default outcome with
the `"INVALID_INPUT"` marker; otherwise the rules are scanned in order. -/
def RuleEngine.evaluate (rt : String → String → Option Bool) (st : EngineState)
    (input : Value) : Except String EvalResult :=
  if !(jsTruthy input) || !(typeofObject input) then
    .ok { outcome := defaultOutcome st
          matchedRule := none
          evaluationPath := [.str "INVALID_INPUT"] }
  else
    evalRules rt (defaultOutcome st) input st.rules []


/-!
## Rule loading (`RuleEngine.loadRules`, engine.js lines 67–101)

`loadRules` reads and parses the YAML source (modelled by the `parsed`
argument, the combined outcome of `fs.readFileSync` + `yaml.load`), filters
and sorts the rule entries, and assigns `this.rules`, `this.defaults`,
`this.aiConfig`, `this.metadata` in that order.  In JS the four assignments
are sequential, but the only statements that can throw are the parse and the
`rules` computation, both of which precede the first assignment (once
`config.rules` has been read successfully, `config` is non-nullish, so the
later property reads cannot throw); modelling the method as an all-or-nothing
state transformer is therefore faithful.
-/

/-- Modelled `TypeError` for `config.rules` when `yaml.load` produced a
nullish document. -/
def nullishConfigError : String := "TypeError: Cannot read properties of a nullish config"

/-- Modelled `TypeError` for `rules.filter` when `config.rules` is truthy but
not an array. -/
def notFilterableError : String := "TypeError: rules.filter is not a function"

/-- Modelled `TypeError` for `rule.id` when a rule entry is nullish. -/
def ruleEntryError : String := "TypeError: Cannot read properties of a nullish rule entry"

/-- `Object.values(OUTCOMES).includes(rule.outcome)` — the closed outcome
enum of engine.js lines 20–24. -/
def outcomeValid (v : Value) : Bool :=
  jsStrictEq v (.str "SAFE_ALLOW") || jsStrictEq v (.str "SAFE_DENY") ||
    jsStrictEq v (.str "GREY_ZONE")

/-- The filter predicate of `loadRules` (engine.js lines 78–84):
`rule.id && rule.condition && Object.values(OUTCOMES).includes(rule.outcome)
&& rule.enabled !== false`; reading `rule.id` throws on a nullish entry. -/
def jsFilterPred (entry : Value) : Except String Bool :=
  match entry with
  | .undefined => .error ruleEntryError
  | .null => .error ruleEntryError
  | _ =>
      .ok (jsTruthy (getProp entry "id") && jsTruthy (getProp entry "condition") &&
        outcomeValid (getProp entry "outcome") &&
        !(jsStrictEq (getProp entry "enabled") (.bool false)))

/-- `Array.prototype.filter` with a predicate that can throw: entries are
tested left to right and the first thrown error propagates. -/
def filterE (p : Value → Except String Bool) : List Value → Except String (List Value)
  | [] => .ok []
  | x :: xs =>
      match p x with
      | .error e => .error e
      | .ok b =>
          match filterE p xs with
          | .error e => .error e
          | .ok rest => .ok (if b then x :: rest else rest)

/-- The numeric sort key of the comparator
`(b.priority || 0) - (a.priority || 0)`: `priority || 0` followed by the
numeric coercion performed by subtraction (`none` = NaN). -/
def sortKey (r : RawRule) : Option Int :=
  toNumber (if jsTruthy r.priority then r.priority else .num 0)

/-- "`a` may stay before `b`" under the comparator: the comparator value
`key b - key a` is `≤ 0`.  A NaN comparator result is treated as `0` by the
sort (ECMA-262), i.e. the pair keeps its order. -/
def ruleLe (a b : RawRule) : Bool :=
  match sortKey a, sortKey b with
  | some x, some y => decide (y ≤ x)
  | _, _ => true

/-- Stable insertion of a rule into an already-sorted suffix; the inserted
rule precedes every element it compares equal to, because it appeared
earlier in the source order. -/
def insertRule (r : RawRule) : List RawRule → List RawRule
  | [] => [r]
  | x :: xs => if ruleLe r x then r :: x :: xs else x :: insertRule r xs

/-- Embedding of `Array.prototype.sort` with the priority comparator: a
stable sort, which for a consistent comparator produces the same list as the
engine's TimSort. -/
def sortRules : List RawRule → List RawRule
  | [] => []
  | r :: rs => insertRule r (sortRules rs)

/-- The fallback defaults object `{ no_match_outcome: OUTCOMES.GREY_ZONE }`
(engine.js lines 87–89). -/
def fallbackDefaults : Value := .obj [("no_match_outcome", .str "GREY_ZONE")]

/-- `RuleEngine.loadRules` (engine.js lines 67–101) as a state transformer:
`parsed` is the outcome of reading + YAML-parsing the configuration source;
any thrown error leaves the engine state unchanged (the caller receives the
`Except.error`). -/
def RuleEngine.loadRules (st : EngineState) (parsed : Except String Value) :
    Except String EngineState :=
  match parsed with
  | .error e => .error e
  | .ok config =>
      match config with
      | .undefined => .error nullishConfigError
      | .null => .error nullishConfigError
      | _ =>
          let rulesVal := getProp config "rules"
          match
            (if jsTruthy rulesVal then
              match rulesVal with
              | .arr xs => Except.ok xs
              | _ => Except.error notFilterableError
            else .ok []) with
          | .error e => .error e
          | .ok entries =>
              match filterE jsFilterPred entries with
              | .error e => .error e
              | .ok kept =>
                  let d := getProp config "defaults"
                  let a := getProp config "ai_config"
                  let m := getProp config "metadata"
                  .ok { rules := sortRules (kept.map toRawRule)
                        defaults := if jsTruthy d then d else fallbackDefaults
                        aiConfig := if jsTruthy a then a else .obj []
                        metadata := if jsTruthy m then m else .obj [] }

/-- The value returned by `DecisionService.reloadRules`. -/
structure ReloadResult where
  success : Bool
  rulesCount : Option Nat
  error : Option String
deriving Repr, DecidableEq

/-- `DecisionService.reloadRules`: calls `loadRules` in a `try`/`catch`,
returning `{success: true, rulesCount}` or `{success: false, error}`; on
failure the engine state is left as it was. -/
def DecisionService.reloadRules (st : EngineState) (parsed : Except String Value) :
    EngineState × ReloadResult :=
  match RuleEngine.loadRules st parsed with
  | .ok st' => (st', { success := true, rulesCount := some st'.rules.length, error := none })
  | .error e => (st, { success := false, rulesCount := none, error := some e })

/-!
## The decision service (`DecisionService.decide`, decisionService.js)
-/

/-- `DecisionService.validateInput`: the input must be a truthy
`typeof "object"` value with truthy `typeof "object"` properties `request`
and `signals`; the first failing check produces the error message. -/
def validateInput (input : Value) : Option String :=
  if !(jsTruthy input) || !(typeofObject input) then
    some "Input must be a non-null object"
  else if !(jsTruthy (getProp input "request")) || !(typeofObject (getProp input "request")) then
    some "Input must contain a \"request\" object"
  else if !(jsTruthy (getProp input "signals")) || !(typeofObject (getProp input "signals")) then
    some "Input must contain a \"signals\" object"
  else
    none

/-- The `ArbiterInsight` record produced by `AIAnalyzer.analyze` (spec §3);
`decide` builds the `analyzed: false` default before deciding whether to
invoke the arbiter. -/
structure ArbiterInsight where
  analyzed : Bool
  recommendation : Value
  confidence : Value
  reasoning : Value
  riskFactors : List Value
  mitigatingFactors : List Value
  analysisTimeMs : Value
  error : Value
deriving Repr, DecidableEq

/-- The default "no opinion" insight initialised in `decide`
(decisionService.js lines 452–461). -/
def noInsight : ArbiterInsight :=
  { analyzed := false, recommendation := .null, confidence := .null, reasoning := .null
    riskFactors := [], mitigatingFactors := [], analysisTimeMs := .null, error := .null }

/-- The value returned by `combineDecision`. -/
structure CombinedDecision where
  finalDecision : Value
  source : Value
  confidence : Value
deriving Repr, DecidableEq

/-- Modelled from the spec: `AIAnalyzer.combineDecision` lives in
`src/ai/analyzer.js`, which is not part of the repository snapshot.  Spec
§4.3 step 4 defines the baseline mapping of the rule outcome to the final
verdict: SAFE_ALLOW → ALLOW, SAFE_DENY → DENY, GREY_ZONE → REVIEW.  The
spec does not define the map on any other value. -/
def baselineFinal (outcome : Value) : Value :=
  if outcome = .str "SAFE_ALLOW" then .str "ALLOW"
  else if outcome = .str "SAFE_DENY" then .str "DENY"
  else if outcome = .str "GREY_ZONE" then .str "REVIEW"
  else .undefined

/-- Modelled from the spec: `AIAnalyzer.combineDecision` lives in
`src/ai/analyzer.js`, which is not part of the repository snapshot.  Spec
§4.3 step 4: if arbitration ran and `analyzed` is true, its recommendation
supersedes the baseline with `source = AI_ANALYSIS` and the insight's
confidence; otherwise the baseline stands with `source = RULE_ENGINE`. -/
def combineDecision (outcome : Value) (insight : ArbiterInsight) : CombinedDecision :=
  if insight.analyzed then
    { finalDecision := insight.recommendation, source := .str "AI_ANALYSIS"
      confidence := insight.confidence }
  else
    { finalDecision := baselineFinal outcome, source := .str "RULE_ENGINE"
      confidence := .null }

/-- The `decision` object of a response. -/
structure Decision where
  final : Value
  source : Value
  confidence : Value
deriving Repr, DecidableEq

/-- The `ruleEvaluation` section of a response (timing omitted). -/
structure RuleEvaluationSection where
  outcome : Value
  matchedRule : Option MatchedRule
deriving Repr, DecidableEq

/-- The `error` section of an error response: `{message, type}`. -/
structure ErrorSection where
  message : Value
  errorType : Value
deriving Repr, DecidableEq

/-- A `decide` response (the `meta` section — version, timing, timestamp,
request id — is outside the model). -/
structure DecisionResponse where
  decision : Decision
  ruleEvaluation : Option RuleEvaluationSection
  aiAnalysis : Option ArbiterInsight
  errorInfo : Option ErrorSection
deriving Repr, DecidableEq

/-- JS `x || null`. -/
def jsOrNull (v : Value) : Value :=
  if jsTruthy v then v else .null

/-- `DecisionService.buildResponse` (decisionService.js lines 538–589):
`aiAnalysis` is present only when the insight was `analyzed`; the decision's
confidence is `combinedDecision.confidence || null`. -/
def buildResponse (ruleResult : EvalResult) (aiInsight : ArbiterInsight)
    (combined : CombinedDecision) : DecisionResponse :=
  { decision :=
      { final := combined.finalDecision, source := combined.source
        confidence := jsOrNull combined.confidence }
    ruleEvaluation := some { outcome := ruleResult.outcome, matchedRule := ruleResult.matchedRule }
    aiAnalysis := if aiInsight.analyzed then some aiInsight else none
    errorInfo := none }

/-- `DecisionService.buildErrorResponse` (decisionService.js lines 594–612):
`final = "ERROR"`, `source = "SYSTEM_ERROR"`, the message in the error
section with `type: "PROCESSING_ERROR"`, and no rule-evaluation section. -/
def buildErrorResponse (errMsg : Value) : DecisionResponse :=
  { decision := { final := .str "ERROR", source := .str "SYSTEM_ERROR", confidence := .null }
    ruleEvaluation := none
    aiAnalysis := none
    errorInfo := some { message := errMsg, errorType := .str "PROCESSING_ERROR" } }

/-- Service configuration: the deployment version (`ENGINE_VERSION`) and the
result of `this.aiAnalyzer.isEnabled()` (the arbiter capability being
configured and enabled; `AIAnalyzer` itself is an external collaborator). -/
structure ServiceConfig where
  version : String
  arbiterEnabled : Bool
deriving Repr, DecidableEq

/-- A `decide` call's observable outcome: the response plus whether the
arbiter (`aiAnalyzer.analyze`) was invoked. -/
structure DecideTrace where
  response : DecisionResponse
  aiInvoked : Bool
deriving Repr, DecidableEq

/-- `DecisionService.decide` (decisionService.js lines 437–514).  The
arbiter is abstracted as a total function `analyze` (spec §6:
`Arbiter.analyze` never throws).  Validation failure returns the error
response built from the validation message; a `TypeError` thrown inside rule
evaluation is caught by `decide`'s `try`/`catch` and also becomes an error
response.  Otherwise the arbiter is consulted exactly when
`needsAI = (outcome === GREY_ZONE) && (version === "v2") && isEnabled()`,
and the rule outcome is combined with the (possibly default) insight. -/
def DecisionService.decide (cfg : ServiceConfig)
    (analyze : Value → EvalResult → ArbiterInsight)
    (rt : String → String → Option Bool) (st : EngineState) (input : Value) :
    DecideTrace :=
  match validateInput input with
  | some err => { response := buildErrorResponse (.str err), aiInvoked := false }
  | none =>
      match RuleEngine.evaluate rt st input with
      | .error e => { response := buildErrorResponse (.str e), aiInvoked := false }
      | .ok ruleResult =>
          let needsAI := jsStrictEq ruleResult.outcome (.str "GREY_ZONE") &&
            (cfg.version == "v2") && cfg.arbiterEnabled
          let aiInsight := if needsAI then analyze input ruleResult else noInsight
          let combined := combineDecision ruleResult.outcome aiInsight
          { response := buildResponse ruleResult aiInsight combined, aiInvoked := needsAI }

/-!
## Helper lemmas
-/

/-- `opLookup` on each registered operator name. -/
theorem opLookup_eq_op (rt : String → String → Option Bool) :
    opLookup rt (.str "eq") = some (fun a b => jsStrictEq a b) := rfl

theorem opLookup_gt_op (rt : String → String → Option Bool) :
    opLookup rt (.str "gt") = some jsGtB := rfl

theorem opLookup_gte_op (rt : String → String → Option Bool) :
    opLookup rt (.str "gte") = some jsGeB := rfl

theorem opLookup_lt_op (rt : String → String → Option Bool) :
    opLookup rt (.str "lt") = some jsLtB := rfl

theorem opLookup_lte_op (rt : String → String → Option Bool) :
    opLookup rt (.str "lte") = some jsLeB := rfl

theorem opLookup_exists_op (rt : String → String → Option Bool) :
    opLookup rt (.str "exists") = some existsOp := rfl

theorem opLookup_regex_op (rt : String → String → Option Bool) :
    opLookup rt (.str "regex") = some (regexOp rt) := rfl

/-- `===` against a string literal holds exactly for that string value. -/
theorem jsStrictEq_str_iff (v : Value) (s : String) :
    jsStrictEq v (.str s) = true ↔ v = .str s := by
  cases v <;> simp [jsStrictEq]

/-- `undefined` is strictly equal only to `undefined`. -/
theorem jsStrictEq_undef_iff (v : Value) :
    jsStrictEq .undefined v = true ↔ v = .undefined := by
  cases v <;> simp [jsStrictEq]

/-- Ordering comparisons against a missing (`undefined`) left operand are
always undefined, hence false. -/
theorem jsCompare_undef_left (b : Value) : jsCompare .undefined b = none := by
  cases b <;> simp [jsCompare, toPrimitive, toNumberPrim]

/-- Ordering comparisons against a missing (`undefined`) right operand are
always undefined, hence false. -/
theorem jsCompare_undef_right (a : Value) : jsCompare a .undefined = none := by
  cases a <;> simp [jsCompare, toPrimitive, toNumberPrim]

/-!
## Claims
-/

/-- Claim C1, counterexample: `decide` on the invalid input `null` returns a
decision with `final = "ERROR"` and `source = "SYSTEM_ERROR"` and no
rule-evaluation section at all (hence no `INVALID_INPUT` marker), contrary to
the claim that the final is not ERROR and the source is not SYSTEM_ERROR. -/
theorem claim_C1_counterexample :
    (DecisionService.decide { version := "v1", arbiterEnabled := false }
        (fun _ _ => noInsight) (fun _ _ => some false)
        { rules := [], defaults := fallbackDefaults, aiConfig := .obj [], metadata := .obj [] }
        Value.null).response.decision.final = .str "ERROR" ∧
    (DecisionService.decide { version := "v1", arbiterEnabled := false }
        (fun _ _ => noInsight) (fun _ _ => some false)
        { rules := [], defaults := fallbackDefaults, aiConfig := .obj [], metadata := .obj [] }
        Value.null).response.decision.source = .str "SYSTEM_ERROR" ∧
    (DecisionService.decide { version := "v1", arbiterEnabled := false }
        (fun _ _ => noInsight) (fun _ _ => some false)
        { rules := [], defaults := fallbackDefaults, aiConfig := .obj [], metadata := .obj [] }
        Value.null).response.ruleEvaluation = none := by
  decide

/-- Claim C1, amended: for every input that is not a truthy
`typeof "object"` value containing truthy object `request` and `signals`
properties (the first conjunct characterises `validateInput`), `decide` does
not throw: it returns the error response built by `buildErrorResponse`, with
`final = "ERROR"`, `source = "SYSTEM_ERROR"`, the validation message under
`error.message` with type `PROCESSING_ERROR`, no rule-evaluation section
(so no `INVALID_INPUT` marker), and without invoking the arbiter. -/
theorem claim_C1 :
    (∀ input : Value,
      validateInput input = none ↔
        (jsTruthy input = true ∧ typeofObject input = true ∧
          jsTruthy (getProp input "request") = true ∧ typeofObject (getProp input "request") = true ∧
          jsTruthy (getProp input "signals") = true ∧ typeofObject (getProp input "signals") = true)) ∧
    (∀ (cfg : ServiceConfig) (analyze : Value → EvalResult → ArbiterInsight)
      (rt : String → String → Option Bool) (st : EngineState) (input : Value) (err : String),
      validateInput input = some err →
        DecisionService.decide cfg analyze rt st input =
          { response := buildErrorResponse (.str err), aiInvoked := false } ∧
        (DecisionService.decide cfg analyze rt st input).response.decision.final = .str "ERROR" ∧
        (DecisionService.decide cfg analyze rt st input).response.decision.source = .str "SYSTEM_ERROR" ∧
        (DecisionService.decide cfg analyze rt st input).response.errorInfo =
          some { message := .str err, errorType := .str "PROCESSING_ERROR" } ∧
        (DecisionService.decide cfg analyze rt st input).response.ruleEvaluation = none ∧
        (DecisionService.decide cfg analyze rt st input).aiInvoked = false) := by
  constructor
  · intro input
    unfold validateInput
    constructor
    · intro h
      by_cases h1 : (!jsTruthy input || !typeofObject input) = true
      · simp [h1] at h
      · by_cases h2 : (!(jsTruthy (getProp input "request")) || !(typeofObject (getProp input "request"))) = true
        · simp [h1, h2] at h
        · by_cases h3 : (!(jsTruthy (getProp input "signals")) || !(typeofObject (getProp input "signals"))) = true
          · simp [h1, h2, h3] at h
          · simp only [Bool.or_eq_true, Bool.not_eq_true'] at h1 h2 h3
            push_neg at h1 h2 h3
            refine ⟨?_, ?_, ?_, ?_, ?_, ?_⟩ <;> simp_all
    · intro ⟨a1, a2, a3, a4, a5, a6⟩
      simp [a1, a2, a3, a4, a5, a6]
  · intro cfg analyze rt st input err h
    refine ⟨?_, ?_, ?_, ?_, ?_, ?_⟩ <;>
      simp [DecisionService.decide, h, buildErrorResponse]

/-- Claim C1 witness: the amended theorem applied to the concrete invalid
input `{request: {}}` (missing `signals`). -/
theorem claim_C1_witness :
    (DecisionService.decide { version := "v2", arbiterEnabled := true }
        (fun _ _ => noInsight) (fun _ _ => some true)
        { rules := [], defaults := fallbackDefaults, aiConfig := .obj [], metadata := .obj [] }
        (.obj [("request", .obj [])])).response.decision.final = .str "ERROR" ∧
    (DecisionService.decide { version := "v2", arbiterEnabled := true }
        (fun _ _ => noInsight) (fun _ _ => some true)
        { rules := [], defaults := fallbackDefaults, aiConfig := .obj [], metadata := .obj [] }
        (.obj [("request", .obj [])])).aiInvoked = false := by
  have h := claim_C1.2 { version := "v2", arbiterEnabled := true }
    (fun _ _ => noInsight) (fun _ _ => some true)
    { rules := [], defaults := fallbackDefaults, aiConfig := .obj [], metadata := .obj [] }
    (.obj [("request", .obj [])])
    "Input must contain a \"signals\" object" (by decide)
  exact ⟨h.2.1, h.2.2.2.2.2⟩

/-- Claim C3 (confirmed): whenever any step of `loadRules` fails,
`reloadRules` leaves the rules, defaults, aiConfig and metadata exactly as
they were and reports `success: false` with the error message to its
caller. -/
theorem claim_C3 (st : EngineState) (parsed : Except String Value) (e : String)
    (h : RuleEngine.loadRules st parsed = .error e) :
    DecisionService.reloadRules st parsed =
      (st, { success := false, rulesCount := none, error := some e }) ∧
    (DecisionService.reloadRules st parsed).1.rules = st.rules ∧
    (DecisionService.reloadRules st parsed).1.defaults = st.defaults ∧
    (DecisionService.reloadRules st parsed).1.aiConfig = st.aiConfig ∧
    (DecisionService.reloadRules st parsed).1.metadata = st.metadata ∧
    (DecisionService.reloadRules st parsed).2.success = false ∧
    (DecisionService.reloadRules st parsed).2.error = some e := by
  refine ⟨?_, ?_, ?_, ?_, ?_, ?_, ?_⟩ <;> simp [DecisionService.reloadRules, h]

/-- Claim C3 witness: a reload whose YAML parse produced a nullish
document leaves a fully-populated concrete engine state untouched and
reports the failure. -/
theorem claim_C3_witness :
    DecisionService.reloadRules
      { rules := [{ id := .str "keep", name := .undefined, priority := .num 7,
                    condition := .obj [("field", .str "a"), ("op", .str "exists"), ("value", .bool true)],
                    outcome := .str "SAFE_DENY", enabled := .undefined }],
        defaults := .obj [("no_match_outcome", .str "SAFE_ALLOW")],
        aiConfig := .obj [("model", .str "m")], metadata := .obj [("v", .num 3)] }
      (.ok .null) =
    ({ rules := [{ id := .str "keep", name := .undefined, priority := .num 7,
                    condition := .obj [("field", .str "a"), ("op", .str "exists"), ("value", .bool true)],
                    outcome := .str "SAFE_DENY", enabled := .undefined }],
        defaults := .obj [("no_match_outcome", .str "SAFE_ALLOW")],
        aiConfig := .obj [("model", .str "m")], metadata := .obj [("v", .num 3)] },
      { success := false, rulesCount := none, error := some nullishConfigError }) := by
  exact (claim_C3 _ _ nullishConfigError (by decide)).1

/-- Claim C4 (confirmed; `combineDecision` and the arbiter interface are
modelled from the spec, as `src/ai/analyzer.js` is not in the snapshot):
for a valid input whose rule evaluation succeeds, `decide` invokes the
arbiter if and only if the rule outcome is `GREY_ZONE`, the version is
`"v2"`, and the arbiter is enabled; and whenever arbitration did not run or
returned `analyzed: false`, the final decision is the baseline mapping of
the rule outcome with `source = "RULE_ENGINE"`. -/
theorem claim_C4 (cfg : ServiceConfig) (analyze : Value → EvalResult → ArbiterInsight)
    (rt : String → String → Option Bool) (st : EngineState) (input : Value) (res : EvalResult)
    (hv : validateInput input = none)
    (he : RuleEngine.evaluate rt st input = .ok res) :
    ((DecisionService.decide cfg analyze rt st input).aiInvoked = true ↔
      (res.outcome = .str "GREY_ZONE" ∧ cfg.version = "v2" ∧ cfg.arbiterEnabled = true)) ∧
    (((DecisionService.decide cfg analyze rt st input).aiInvoked = false ∨
        (analyze input res).analyzed = false) →
      (DecisionService.decide cfg analyze rt st input).response.decision.final =
        baselineFinal res.outcome ∧
      (DecisionService.decide cfg analyze rt st input).response.decision.source =
        .str "RULE_ENGINE") := by
  have hd : DecisionService.decide cfg analyze rt st input =
      (let needsAI := jsStrictEq res.outcome (.str "GREY_ZONE") &&
        (cfg.version == "v2") && cfg.arbiterEnabled
      let aiInsight := if needsAI then analyze input res else noInsight
      let combined := combineDecision res.outcome aiInsight
      { response := buildResponse res aiInsight combined, aiInvoked := needsAI }) := by
    simp [DecisionService.decide, hv, he]
  constructor
  · rw [hd]
    simp only [Bool.and_eq_true, jsStrictEq_str_iff, beq_iff_eq]
    tauto
  · intro h
    rw [hd] at h ⊢
    cases hna : (jsStrictEq res.outcome (.str "GREY_ZONE") &&
        (cfg.version == "v2") && cfg.arbiterEnabled)
    · simp only [hna, if_false, Bool.false_eq_true] at *
      simp [buildResponse, combineDecision, noInsight]
    · simp only [hna, if_true] at *
      have han : (analyze input res).analyzed = false := by
        rcases h with h | h
        · simp at h
        · exact h
      simp [buildResponse, combineDecision, han]

/-- Claim C4 witness: a v2 deployment with an enabled arbiter that returns
`analyzed: false` on a grey-zone input — arbitration is invoked and the
decision degrades to `REVIEW` from the rule engine. -/
theorem claim_C4_witness :
    (DecisionService.decide { version := "v2", arbiterEnabled := true }
        (fun _ _ => noInsight) (fun _ _ => some false)
        { rules := [{ id := .str "g1", name := .str "grey rule", priority := .num 1,
                      condition := .obj [("field", .str "signals.risk"), ("op", .str "exists"), ("value", .bool true)],
                      outcome := .str "GREY_ZONE", enabled := .undefined }],
          defaults := fallbackDefaults, aiConfig := .obj [], metadata := .obj [] }
        (.obj [("request", .obj []), ("signals", .obj [("risk", .num 2)])])).aiInvoked = true ∧
    (DecisionService.decide { version := "v2", arbiterEnabled := true }
        (fun _ _ => noInsight) (fun _ _ => some false)
        { rules := [{ id := .str "g1", name := .str "grey rule", priority := .num 1,
                      condition := .obj [("field", .str "signals.risk"), ("op", .str "exists"), ("value", .bool true)],
                      outcome := .str "GREY_ZONE", enabled := .undefined }],
          defaults := fallbackDefaults, aiConfig := .obj [], metadata := .obj [] }
        (.obj [("request", .obj []), ("signals", .obj [("risk", .num 2)])])).response.decision.final = .str "REVIEW" ∧
    (DecisionService.decide { version := "v2", arbiterEnabled := true }
        (fun _ _ => noInsight) (fun _ _ => some false)
        { rules := [{ id := .str "g1", name := .str "grey rule", priority := .num 1,
                      condition := .obj [("field", .str "signals.risk"), ("op", .str "exists"), ("value", .bool true)],
                      outcome := .str "GREY_ZONE", enabled := .undefined }],
          defaults := fallbackDefaults, aiConfig := .obj [], metadata := .obj [] }
        (.obj [("request", .obj []), ("signals", .obj [("risk", .num 2)])])).response.decision.source = .str "RULE_ENGINE" := by
  have hc : evaluateCondition (fun _ _ => some false)
      (.obj [("field", .str "signals.risk"), ("op", .str "exists"), ("value", .bool true)])
      (.obj [("request", .obj []), ("signals", .obj [("risk", .num 2)])]) = .ok true := by
    rw [evaluateCondition_obj]; decide
  have he : RuleEngine.evaluate (fun _ _ => some false)
      { rules := [{ id := .str "g1", name := .str "grey rule", priority := .num 1,
                    condition := .obj [("field", .str "signals.risk"), ("op", .str "exists"), ("value", .bool true)],
                    outcome := .str "GREY_ZONE", enabled := .undefined }],
        defaults := fallbackDefaults, aiConfig := .obj [], metadata := .obj [] }
      (.obj [("request", .obj []), ("signals", .obj [("risk", .num 2)])]) =
      .ok { outcome := .str "GREY_ZONE",
            matchedRule := some { id := .str "g1", name := .str "grey rule", priority := .num 1 },
            evaluationPath := [.obj [("ruleId", .str "g1"), ("ruleName", .str "grey rule"), ("matched", .bool true)]] } := by
    simp [RuleEngine.evaluate, evalRules, hc, jsTruthy, typeofObject, attemptOf]
  have h := claim_C4 { version := "v2", arbiterEnabled := true }
    (fun _ _ => noInsight) (fun _ _ => some false)
    { rules := [{ id := .str "g1", name := .str "grey rule", priority := .num 1,
                  condition := .obj [("field", .str "signals.risk"), ("op", .str "exists"), ("value", .bool true)],
                  outcome := .str "GREY_ZONE", enabled := .undefined }],
      defaults := fallbackDefaults, aiConfig := .obj [], metadata := .obj [] }
    (.obj [("request", .obj []), ("signals", .obj [("risk", .num 2)])])
    { outcome := .str "GREY_ZONE",
      matchedRule := some { id := .str "g1", name := .str "grey rule", priority := .num 1 },
      evaluationPath := [.obj [("ruleId", .str "g1"), ("ruleName", .str "grey rule"), ("matched", .bool true)]] }
    (by decide) he
  refine ⟨h.1.mpr ⟨rfl, rfl, rfl⟩, ?_, (h.2 (Or.inr rfl)).2⟩
  have := (h.2 (Or.inr rfl)).1
  simpa [baselineFinal] using this

/-- The rule loop on a list whose prefix fails and whose next rule matches:
one attempt per considered rule, stop at the match, later rules untouched. -/
theorem evalRules_first_match (rt : String → String → Option Bool) (dflt input : Value)
    (pre : List RawRule) (r : RawRule) (post : List RawRule) :
    ∀ acc : List Value,
      (∀ p ∈ pre, evaluateCondition rt p.condition input = .ok false) →
      evaluateCondition rt r.condition input = .ok true →
      evalRules rt dflt input (pre ++ r :: post) acc =
        .ok { outcome := r.outcome
              matchedRule := some { id := r.id, name := r.name, priority := r.priority }
              evaluationPath := acc ++ pre.map (fun p => attemptOf p false) ++ [attemptOf r true] } := by
  induction pre with
  | nil =>
      intro acc _ hr
      simp [evalRules, hr]
  | cons p pre' ih =>
      intro acc hpre hr
      have hp : evaluateCondition rt p.condition input = .ok false :=
        hpre p (by simp)
      have hrest : ∀ q ∈ pre', evaluateCondition rt q.condition input = .ok false :=
        fun q hq => hpre q (by simp [hq])
      simp only [List.cons_append, evalRules, hp, Bool.false_eq_true, if_false,
        List.append_eq]
      rw [ih (acc ++ [attemptOf p false]) hrest hr]
      simp

/-- The rule loop when no rule matches: every rule contributes an attempt
and the default outcome is returned with no matched rule. -/
theorem evalRules_no_match (rt : String → String → Option Bool) (dflt input : Value)
    (rules : List RawRule) :
    ∀ acc : List Value,
      (∀ p ∈ rules, evaluateCondition rt p.condition input = .ok false) →
      evalRules rt dflt input rules acc =
        .ok { outcome := dflt, matchedRule := none
              evaluationPath := acc ++ rules.map (fun p => attemptOf p false) } := by
  induction rules with
  | nil => intro acc _; simp [evalRules]
  | cons p rules' ih =>
      intro acc hall
      have hp : evaluateCondition rt p.condition input = .ok false := hall p (by simp)
      have hrest : ∀ q ∈ rules', evaluateCondition rt q.condition input = .ok false :=
        fun q hq => hall q (by simp [hq])
      simp only [evalRules, hp, Bool.false_eq_true, if_false, List.append_eq]
      rw [ih (acc ++ [attemptOf p false]) hrest]
      simp

/-- Claim C2, amended: for every loaded rule sequence and valid input,
**provided each considered rule's condition evaluates without a thrown
`TypeError`**, rule evaluation visits the rules in stored order, appends one
`EvaluationAttempt` per rule considered, stops at the first match returning
that rule's outcome and identity without evaluating any later rule (the
result does not depend on `post`), and returns the configured default
outcome with `matchedRule = none` when no rule matches.  The proviso is
forced by the counterexample: a loaded rule whose condition throws aborts
evaluation instead. -/
theorem claim_C2 (rt : String → String → Option Bool) (st : EngineState) (input : Value)
    (hvalid : jsTruthy input = true ∧ typeofObject input = true) :
    (∀ (pre : List RawRule) (r : RawRule) (post : List RawRule),
      st.rules = pre ++ r :: post →
      (∀ p ∈ pre, evaluateCondition rt p.condition input = .ok false) →
      evaluateCondition rt r.condition input = .ok true →
      RuleEngine.evaluate rt st input =
        .ok { outcome := r.outcome
              matchedRule := some { id := r.id, name := r.name, priority := r.priority }
              evaluationPath := pre.map (fun p => attemptOf p false) ++ [attemptOf r true] }) ∧
    ((∀ p ∈ st.rules, evaluateCondition rt p.condition input = .ok false) →
      RuleEngine.evaluate rt st input =
        .ok { outcome := defaultOutcome st, matchedRule := none
              evaluationPath := st.rules.map (fun p => attemptOf p false) }) := by
  obtain ⟨h1, h2⟩ := hvalid
  constructor
  · intro pre r post hsplit hpre hr
    rw [RuleEngine.evaluate]
    simp only [h1, h2, Bool.not_true, Bool.or_self, Bool.false_or, if_neg]
    rw [hsplit, evalRules_first_match rt (defaultOutcome st) input pre r post [] hpre hr]
    simp
  · intro hall
    rw [RuleEngine.evaluate]
    simp only [h1, h2, Bool.not_true, Bool.or_self, Bool.false_or, if_neg]
    rw [evalRules_no_match rt (defaultOutcome st) input st.rules [] hall]
    simp

/-- Claim C2, counterexample: a rule whose condition `{field: null,
op: "eq"}` passes the load-time filter (truthy id, truthy condition, valid
outcome, not disabled), yet on a perfectly valid input its evaluation throws
a `TypeError` inside `getValue` (`null.split` is not a function), so
`evaluate` neither appends its attempt, nor returns the rule's outcome, nor
falls through to the default outcome — contradicting the claim as stated. -/
theorem claim_C2_counterexample :
    RuleEngine.loadRules
        { rules := [], defaults := fallbackDefaults, aiConfig := .obj [], metadata := .obj [] }
        (.ok (.obj [("rules", .arr [.obj [("id", .str "r1"),
            ("condition", .obj [("field", Value.null), ("op", .str "eq")]),
            ("outcome", .str "SAFE_ALLOW")]])])) =
      .ok { rules := [{ id := .str "r1", name := .undefined, priority := .undefined,
                        condition := .obj [("field", Value.null), ("op", .str "eq")],
                        outcome := .str "SAFE_ALLOW", enabled := .undefined }],
            defaults := fallbackDefaults, aiConfig := .obj [], metadata := .obj [] } ∧
    RuleEngine.evaluate (fun _ _ => some false)
        { rules := [{ id := .str "r1", name := .undefined, priority := .undefined,
                      condition := .obj [("field", Value.null), ("op", .str "eq")],
                      outcome := .str "SAFE_ALLOW", enabled := .undefined }],
          defaults := fallbackDefaults, aiConfig := .obj [], metadata := .obj [] }
        (.obj [("request", .obj []), ("signals", .obj [])]) = .error splitTypeError := by
  constructor
  · decide
  · have hc : evaluateCondition (fun _ _ => some false)
        (.obj [("field", Value.null), ("op", .str "eq")])
        (.obj [("request", .obj []), ("signals", .obj [])]) = .error splitTypeError := by
      rw [evaluateCondition_obj]; decide
    simp [RuleEngine.evaluate, evalRules, hc, jsTruthy, typeofObject]

/-- Claim C2 witness: three loaded rules where the first fails, the second
matches and the third would also match — evaluation stops at the second and
the third leaves no trace in the result. -/
theorem claim_C2_witness :
    RuleEngine.evaluate (fun _ _ => some false)
        { rules :=
            [{ id := .str "r1", name := .str "first", priority := .num 9,
               condition := .obj [("field", .str "signals.kind"), ("op", .str "eq"), ("value", .str "x")],
               outcome := .str "SAFE_ALLOW", enabled := .undefined },
             { id := .str "r2", name := .str "second", priority := .num 5,
               condition := .obj [("field", .str "signals.kind"), ("op", .str "exists"), ("value", .bool true)],
               outcome := .str "SAFE_DENY", enabled := .undefined },
             { id := .str "r3", name := .str "third", priority := .num 1,
               condition := .obj [("field", .str "signals.kind"), ("op", .str "exists"), ("value", .bool true)],
               outcome := .str "GREY_ZONE", enabled := .undefined }],
          defaults := fallbackDefaults, aiConfig := .obj [], metadata := .obj [] }
        (.obj [("request", .obj []), ("signals", .obj [("kind", .str "y")])]) =
      .ok { outcome := .str "SAFE_DENY",
            matchedRule := some { id := .str "r2", name := .str "second", priority := .num 5 },
            evaluationPath :=
              [.obj [("ruleId", .str "r1"), ("ruleName", .str "first"), ("matched", .bool false)],
               .obj [("ruleId", .str "r2"), ("ruleName", .str "second"), ("matched", .bool true)]] } := by
  have h := claim_C2 (fun _ _ => some false)
    { rules :=
        [{ id := .str "r1", name := .str "first", priority := .num 9,
           condition := .obj [("field", .str "signals.kind"), ("op", .str "eq"), ("value", .str "x")],
           outcome := .str "SAFE_ALLOW", enabled := .undefined },
         { id := .str "r2", name := .str "second", priority := .num 5,
           condition := .obj [("field", .str "signals.kind"), ("op", .str "exists"), ("value", .bool true)],
           outcome := .str "SAFE_DENY", enabled := .undefined },
         { id := .str "r3", name := .str "third", priority := .num 1,
           condition := .obj [("field", .str "signals.kind"), ("op", .str "exists"), ("value", .bool true)],
           outcome := .str "GREY_ZONE", enabled := .undefined }],
      defaults := fallbackDefaults, aiConfig := .obj [], metadata := .obj [] }
    (.obj [("request", .obj []), ("signals", .obj [("kind", .str "y")])])
    (by exact ⟨by decide, by decide⟩)
  have h1 := h.1
    [{ id := .str "r1", name := .str "first", priority := .num 9,
       condition := .obj [("field", .str "signals.kind"), ("op", .str "eq"), ("value", .str "x")],
       outcome := .str "SAFE_ALLOW", enabled := .undefined }]
    { id := .str "r2", name := .str "second", priority := .num 5,
      condition := .obj [("field", .str "signals.kind"), ("op", .str "exists"), ("value", .bool true)],
      outcome := .str "SAFE_DENY", enabled := .undefined }
    [{ id := .str "r3", name := .str "third", priority := .num 1,
       condition := .obj [("field", .str "signals.kind"), ("op", .str "exists"), ("value", .bool true)],
       outcome := .str "GREY_ZONE", enabled := .undefined }]
    rfl
    (by
      intro p hp
      rw [List.mem_singleton] at hp
      subst hp
      rw [evaluateCondition_obj]; decide)
    (by rw [evaluateCondition_obj]; decide)
  simpa [attemptOf] using h1

/-- Claim C5, counterexample: an explicitly `null` field value satisfies
`gte 0` (JS coerces `null` to `0` in relational comparisons, so
`null >= 0` is `true`), and the string `"10"` satisfies `gt 5` (numeric
coercion of a numeric string), contradicting "mismatched kinds evaluate to
false" and "a null or missing field value never satisfies an ordering
comparison". -/
theorem claim_C5_counterexample :
    evaluateCondition (fun _ _ => some false)
        (.obj [("field", .str "a"), ("op", .str "gte"), ("value", .num 0)])
        (.obj [("a", Value.null)]) = .ok true ∧
    evaluateCondition (fun _ _ => some false)
        (.obj [("field", .str "b"), ("op", .str "gt"), ("value", .num 5)])
        (.obj [("b", .str "10")]) = .ok true := by
  constructor <;> (rw [evaluateCondition_obj]; decide)

/-- Claim C5, amended: ordering comparisons never throw (the operators are
total on the modelled values), and a *missing* (`undefined`) field value
never satisfies `gt`/`gte`/`lt`/`lte` against any operand; but on any other
operands the ECMA abstract relational comparison applies: both sides are
converted with `ToPrimitive` — if both primitives are strings the
comparison is lexicographic (every plain object stringifies to
`"[object Object]"`, so `({}) >= ({})`, `({}) <= ({})` and `({}) > ""`
hold), otherwise both go through `ToNumber` (`null` as `0`, so it satisfies
`gte 0`; the numeric string `"10"` satisfies `gt 5`), and only a NaN
conversion makes the comparison false. -/
theorem claim_C5 (rt : String → String → Option Bool) (input : Value) (path : String)
    (b : Value) (hmiss : resolvePath input path = .undefined) :
    (evaluateCondition rt (.obj [("field", .str path), ("op", .str "gt"), ("value", b)]) input
        = .ok false) ∧
    (evaluateCondition rt (.obj [("field", .str path), ("op", .str "gte"), ("value", b)]) input
        = .ok false) ∧
    (evaluateCondition rt (.obj [("field", .str path), ("op", .str "lt"), ("value", b)]) input
        = .ok false) ∧
    (evaluateCondition rt (.obj [("field", .str path), ("op", .str "lte"), ("value", b)]) input
        = .ok false) ∧
    jsGeB .null (.num 0) = true ∧ jsLeB .null (.num 0) = true ∧
    jsGtB (.str "10") (.num 5) = true ∧
    (∀ (fields fieldsB : List (String × Value)),
      jsGeB (.obj fields) (.obj fieldsB) = true ∧
      jsLeB (.obj fields) (.obj fieldsB) = true ∧
      jsGtB (.obj fields) (.str "") = true) ∧
    (∀ fields : List (String × Value), jsGtB (.obj fields) (.num 0) = false) := by
  refine ⟨?_, ?_, ?_, ?_, by decide, by decide, by decide, ?_, ?_⟩
  · rw [evaluateCondition_obj]
    simp [lookupField, jsTruthy, evaluateLeaf, getProp, lookupOwn, getValueE, hmiss,
      opLookup_gt_op, jsGtB, jsCompare_undef_left]
  · rw [evaluateCondition_obj]
    simp [lookupField, jsTruthy, evaluateLeaf, getProp, lookupOwn, getValueE, hmiss,
      opLookup_gte_op, jsGeB, jsCompare_undef_left]
  · rw [evaluateCondition_obj]
    simp [lookupField, jsTruthy, evaluateLeaf, getProp, lookupOwn, getValueE, hmiss,
      opLookup_lt_op, jsLtB, jsCompare_undef_left]
  · rw [evaluateCondition_obj]
    simp [lookupField, jsTruthy, evaluateLeaf, getProp, lookupOwn, getValueE, hmiss,
      opLookup_lte_op, jsLeB, jsCompare_undef_left]
  · intro fields fieldsB
    refine ⟨?_, ?_, ?_⟩ <;>
      simp [jsGeB, jsLeB, jsGtB, jsCompare, toPrimitive,
        show compare "[object Object]" "[object Object]" = Ordering.eq from by decide,
        show compare "[object Object]" "" = Ordering.gt from by decide]
  · intro fields
    simp [jsGtB, jsCompare, toPrimitive, toNumberPrim,
      show jsStringToNumber "[object Object]" = none from by decide]

/-- Claim C5 witness: a `gt` comparison against a missing
`signals.score` path evaluates to `false` without an error. -/
theorem claim_C5_witness :
    evaluateCondition (fun _ _ => some true)
        (.obj [("field", .str "signals.score"), ("op", .str "gt"), ("value", .num 80)])
        (.obj [("request", .obj []), ("signals", .obj [])]) = .ok false := by
  exact (claim_C5 (fun _ _ => some true) (.obj [("request", .obj []), ("signals", .obj [])])
    "signals.score" (.num 80) (by decide)).1

/-- Unfolding of `evaluateCondition` at a compound node with a truthy
operator token and an array of operands. -/
theorem evaluateCondition_compound (rt : String → String → Option Bool)
    (fields : List (String × Value)) (input : Value) (ops : List Value)
    (hop : jsTruthy (lookupField fields "operator") = true)
    (hops : lookupField fields "operands" = .arr ops) :
    evaluateCondition rt (.obj fields) input =
      match evaluateOperands rt ops input with
      | .error e => .error e
      | .ok results =>
          match lookupField fields "operator" with
          | .str "AND" => .ok (results.all (fun r => r == true))
          | .str "OR" => .ok (results.any (fun r => r == true))
          | _ => .ok false := by
  rw [evaluateCondition_obj, if_pos hop]
  split
  · rename_i ops' heq
    rw [hops] at heq
    cases heq
    rfl
  · rename_i hne
    exact absurd hops (hne ops)

/-- Claim C6, counterexample: a compound node whose operator token is the
empty string — a token other than `AND`/`OR` — is *not* evaluated to
`false`: because `""` is falsy, `evaluateCondition` treats the node as a
leaf and throws a `TypeError` on the missing `field` (`undefined.split`). -/
theorem claim_C6_counterexample :
    evaluateCondition (fun _ _ => some false)
        (.obj [("operator", .str ""), ("operands", .arr [])])
        (.obj [("request", .obj []), ("signals", .obj [])]) = .error splitTypeError := by
  rw [evaluateCondition_obj]; decide

/-- Claim C6, amended: a compound with an empty operands list evaluates to
the boolean identity of its operator (`AND` to `true`, `OR` to `false`),
and a compound node with a *truthy* (non-empty) operator token other than
`AND`/`OR` whose operands all evaluate without a thrown error is not a match
(evaluates to `false`); a falsy token such as `""` instead routes the node
to the leaf branch, where evaluation throws. -/
theorem claim_C6 (rt : String → String → Option Bool) (input : Value) :
    (evaluateCondition rt (.obj [("operator", .str "AND"), ("operands", .arr [])]) input
        = .ok true) ∧
    (evaluateCondition rt (.obj [("operator", .str "OR"), ("operands", .arr [])]) input
        = .ok false) ∧
    (∀ (t : String) (ops : List Value) (results : List Bool),
      t ≠ "" → t ≠ "AND" → t ≠ "OR" →
      evaluateOperands rt ops input = .ok results →
      evaluateCondition rt (.obj [("operator", .str t), ("operands", .arr ops)]) input
        = .ok false) := by
  refine ⟨?_, ?_, ?_⟩
  · rw [evaluateCondition_obj]
    simp [lookupField, jsTruthy, evaluateOperands_nil rt input]
  · rw [evaluateCondition_obj]
    simp [lookupField, jsTruthy, evaluateOperands_nil rt input]
  · intro t ops results ht hA hO hres
    rw [evaluateCondition_compound rt _ input ops (by simp [lookupField, jsTruthy, ht])
      (by simp [lookupField])]
    have hl1 : lookupField [("operator", Value.str t), ("operands", Value.arr ops)] "operator"
        = .str t := by simp [lookupField]
    rw [hres, hl1]
    split
    · rename_i e heq
      exact absurd heq (by simp)
    · rename_i results' heq
      split
      · rename_i heq2
        exact absurd (by injection heq2) hA
      · rename_i heq2
        exact absurd (by injection heq2) hO
      · rfl

/-- Claim C6 witness: the amended theorem at a concrete input for
`AND`-empty, `OR`-empty and the unknown token `"XOR"`. -/
theorem claim_C6_witness :
    evaluateCondition (fun _ _ => some false)
        (.obj [("operator", .str "AND"), ("operands", .arr [])]) (.obj [("s", .num 1)])
      = .ok true ∧
    evaluateCondition (fun _ _ => some false)
        (.obj [("operator", .str "OR"), ("operands", .arr [])]) (.obj [("s", .num 1)])
      = .ok false ∧
    evaluateCondition (fun _ _ => some false)
        (.obj [("operator", .str "XOR"), ("operands", .arr [])]) (.obj [("s", .num 1)])
      = .ok false := by
  refine ⟨(claim_C6 (fun _ _ => some false) (.obj [("s", .num 1)])).1,
    (claim_C6 (fun _ _ => some false) (.obj [("s", .num 1)])).2.1,
    (claim_C6 (fun _ _ => some false) (.obj [("s", .num 1)])).2.2 "XOR" [] []
      (by decide) (by decide) (by decide)
      (evaluateOperands_nil (fun _ _ => some false) (.obj [("s", .num 1)]))⟩

/-- Inserting into the sorted suffix is a permutation of consing. -/
theorem insertRule_perm (r : RawRule) (L : List RawRule) :
    (insertRule r L).Perm (r :: L) := by
  induction L with
  | nil => simp [insertRule]
  | cons x xs ih =>
      rw [insertRule]
      split
      · exact List.Perm.refl _
      · exact ((ih.cons x).trans (List.Perm.swap r x xs))

/-- The stable sort permutes the input. -/
theorem sortRules_perm (L : List RawRule) : (sortRules L).Perm L := by
  induction L with
  | nil => simp [sortRules]
  | cons r rs ih =>
      rw [sortRules]
      exact (insertRule_perm r (sortRules rs)).trans (ih.cons r)

/-- The comparator order is total. -/
theorem ruleLe_total (a b : RawRule) : ruleLe a b = true ∨ ruleLe b a = true := by
  unfold ruleLe
  rcases ha : sortKey a with _ | x <;> rcases hb : sortKey b with _ | y <;> simp
  omega

/-- The comparator order is transitive on rules with numeric keys. -/
theorem ruleLe_trans (a b c : RawRule) (hb : (sortKey b).isSome = true)
    (hab : ruleLe a b = true) (hbc : ruleLe b c = true) : ruleLe a c = true := by
  unfold ruleLe at *
  rcases ha : sortKey a with _ | x <;> rcases hc : sortKey c with _ | z <;> simp
  rcases hbm : sortKey b with _ | y
  · rw [hbm] at hb; simp at hb
  · rw [ha, hbm] at hab
    rw [hbm, hc] at hbc
    simp at hab hbc
    omega

/-- Membership in an insertion. -/
theorem mem_insertRule {x r : RawRule} {L : List RawRule} :
    x ∈ insertRule r L ↔ x = r ∨ x ∈ L :=
  ⟨fun h => by
      have := (insertRule_perm r L).mem_iff.mp h
      simpa using this,
   fun h => (insertRule_perm r L).mem_iff.mpr (by simpa using h)⟩

/-- Inserting into a sorted list keeps it sorted (numeric keys). -/
theorem insertRule_pairwise (r : RawRule) (L : List RawRule)
    (hall : ∀ x ∈ r :: L, (sortKey x).isSome = true)
    (hL : L.Pairwise (fun a b => ruleLe a b = true)) :
    (insertRule r L).Pairwise (fun a b => ruleLe a b = true) := by
  induction L with
  | nil => simp [insertRule]
  | cons x xs ih =>
      obtain ⟨hx, hxs⟩ := List.pairwise_cons.mp hL
      rw [insertRule]
      split
      · rename_i hle
        refine List.pairwise_cons.mpr ⟨?_, hL⟩
        intro y hy
        rcases List.mem_cons.mp hy with hy | hy
        · exact hy ▸ hle
        · exact ruleLe_trans r x y (hall x (by simp)) hle (hx y hy)
      · rename_i hnle
        refine List.pairwise_cons.mpr ⟨?_, ?_⟩
        · intro y hy
          rcases mem_insertRule.mp hy with hy | hy
          · cases hy
            rcases ruleLe_total r x with h | h
            · exact absurd h hnle
            · exact h
          · exact hx y hy
        · refine ih ?_ hxs
          intro z hz
          rcases List.mem_cons.mp hz with hz | hz
          · exact hz ▸ hall r (by simp)
          · exact hall z (by simp [hz])

/-- The stable sort produces a list sorted by the comparator
(priority descending) when every key is numeric. -/
theorem sortRules_pairwise (L : List RawRule)
    (hall : ∀ x ∈ L, (sortKey x).isSome = true) :
    (sortRules L).Pairwise (fun a b => ruleLe a b = true) := by
  induction L with
  | nil => simp [sortRules]
  | cons r rs ih =>
      rw [sortRules]
      refine insertRule_pairwise r (sortRules rs) ?_ ?_
      · intro x hx
        rcases List.mem_cons.mp hx with hx | hx
        · exact hx ▸ hall r (by simp)
        · exact hall x (by simp [(sortRules_perm rs).mem_iff.mp hx])
      · exact ih (fun x hx => hall x (by simp [hx]))

/-- Inserting a rule whose key is `k` puts it in front of its own key class
(the elements skipped before the insertion point have strictly greater
keys). -/
theorem insertRule_filter_pos (r : RawRule) (L : List RawRule) (k : Int)
    (hk : sortKey r = some k) :
    (insertRule r L).filter (fun x => sortKey x == some k) =
      r :: L.filter (fun x => sortKey x == some k) := by
  induction L with
  | nil => simp [insertRule, List.filter, hk]
  | cons x xs ih =>
      rw [insertRule]
      split
      · rename_i hle
        simp [List.filter_cons, hk]
      · rename_i hnle
        have hxk : ∃ kx : Int, sortKey x = some kx ∧ k < kx := by
          unfold ruleLe at hnle
          rw [hk] at hnle
          rcases hx : sortKey x with _ | kx
          · rw [hx] at hnle; simp at hnle
          · rw [hx] at hnle
            simp at hnle
            exact ⟨kx, rfl, hnle⟩
        obtain ⟨kx, hx, hlt⟩ := hxk
        have hne : (sortKey x == some k) = false := by
          simp [hx]
          omega
        rw [List.filter_cons, List.filter_cons, hne]
        simp only [Bool.false_eq_true, if_false]
        exact ih

/-- Inserting a rule of a different key class leaves that class's filter
unchanged. -/
theorem insertRule_filter_neg (r : RawRule) (L : List RawRule) (k : Int)
    (hk : ¬ sortKey r = some k) :
    (insertRule r L).filter (fun x => sortKey x == some k) =
      L.filter (fun x => sortKey x == some k) := by
  have hrk : (sortKey r == some k) = false := by simpa using hk
  induction L with
  | nil => simp [insertRule, List.filter, hrk]
  | cons x xs ih =>
      rw [insertRule]
      split
      · simp [List.filter_cons, hrk]
      · rw [List.filter_cons, List.filter_cons, ih]

/-- Stability: sorting does not reorder rules within a key class. -/
theorem sortRules_filter (L : List RawRule) (k : Int) :
    (sortRules L).filter (fun x => sortKey x == some k) =
      L.filter (fun x => sortKey x == some k) := by
  induction L with
  | nil => simp [sortRules]
  | cons r rs ih =>
      rw [sortRules]
      by_cases hk : sortKey r = some k
      · rw [insertRule_filter_pos r (sortRules rs) k hk, ih, List.filter_cons]
        simp [hk]
      · rw [insertRule_filter_neg r (sortRules rs) k hk, ih, List.filter_cons]
        have : (sortKey r == some k) = false := by simpa using hk
        simp [this]

/-- A successful fallible filter equals the pure filter by "the predicate
returned `ok true`". -/
theorem filterE_eq_filter (p : Value → Except String Bool) :
    ∀ (l kept : List Value), filterE p l = .ok kept →
      kept = l.filter (fun e => p e == Except.ok true) := by
  intro l
  induction l with
  | nil =>
      intro kept h
      simp only [filterE] at h
      cases h
      simp
  | cons x xs ih =>
      intro kept h
      rw [filterE] at h
      rcases hx : p x with e | b <;> rw [hx] at h
      · simp at h
      · rcases hxs : filterE p xs with e | rest <;> rw [hxs] at h
        · simp at h
        · simp only [Except.ok.injEq] at h
          rw [List.filter_cons, hx]
          cases b
          · simp only [← h]
            simp [ih rest hxs]
          · simp only [← h]
            simp [ih rest hxs]

/-- `config.rules` reads as `undefined` on non-object configs (the key
`rules` is not inherited from any builtin prototype). -/
theorem getProp_rules_undefined (s : String) (xs : List Value) (b : Bool) (n : Int) :
    getProp (.str s) "rules" = .undefined ∧ getProp (.arr xs) "rules" = .undefined ∧
    getProp (.bool b) "rules" = .undefined ∧ getProp (.num n) "rules" = .undefined := by
  refine ⟨?_, ?_, ?_, ?_⟩ <;>
    simp [getProp, show canonIndex "rules" = none from by decide,
      show protoChain [stringProtoFields, objectProtoFields] "rules" = .undefined from by decide,
      show protoChain [arrayProtoFields, objectProtoFields] "rules" = .undefined from by decide,
      show protoChain [booleanProtoFields, objectProtoFields] "rules" = .undefined from by decide,
      show protoChain [numberProtoFields, objectProtoFields] "rules" = .undefined from by decide]

/-- Claim C7, amended: after a successful load the active rule list
consists exactly of the source entries with a *truthy* id (present and
non-empty), a truthy condition, an outcome in the closed enum, and `enabled`
not strictly `false` (first conjunct: the kept entries are the filter of the
source by that predicate), as a permutation sorted by priority descending
with missing priority treated as `0` (Pairwise under the comparator order),
and with equal-priority rules preserving source order (the filter to each
key class is unchanged by the sort).  No rule is excluded at evaluation time
(`evaluate` walks `st.rules` in full — claim C2's theorem). -/
theorem claim_C7 (st st' : EngineState) (config : Value) (entries kept : List Value)
    (hload : RuleEngine.loadRules st (.ok config) = .ok st')
    (hrules : getProp config "rules" = .arr entries)
    (hkept : filterE jsFilterPred entries = .ok kept)
    (hsome : ∀ x ∈ kept.map toRawRule, (sortKey x).isSome = true) :
    kept = entries.filter (fun e => jsFilterPred e == Except.ok true) ∧
    st'.rules.Perm (kept.map toRawRule) ∧
    st'.rules.Pairwise (fun a b => ruleLe a b = true) ∧
    (∀ k : Int, st'.rules.filter (fun x => sortKey x == some k) =
      (kept.map toRawRule).filter (fun x => sortKey x == some k)) := by
  have hrules' : st'.rules = sortRules (kept.map toRawRule) := by
    cases config with
    | undefined => simp [RuleEngine.loadRules] at hload
    | null => simp [RuleEngine.loadRules] at hload
    | bool b =>
        rw [(getProp_rules_undefined "" [] b 0).2.2.1] at hrules
        simp at hrules
    | num n =>
        rw [(getProp_rules_undefined "" [] false n).2.2.2] at hrules
        simp at hrules
    | str s =>
        rw [(getProp_rules_undefined s [] false 0).1] at hrules
        simp at hrules
    | arr xs =>
        rw [(getProp_rules_undefined "" xs false 0).2.1] at hrules
        simp at hrules
    | native d =>
        simp [getProp] at hrules
    | obj fields =>
        simp only [RuleEngine.loadRules] at hload
        rw [hrules] at hload
        simp [jsTruthy, hkept] at hload
        rw [← hload]
  refine ⟨filterE_eq_filter jsFilterPred entries kept hkept, ?_, ?_, ?_⟩
  · rw [hrules']
    exact sortRules_perm _
  · rw [hrules']
    exact sortRules_pairwise _ hsome
  · intro k
    rw [hrules']
    exact sortRules_filter _ k

/-- Claim C7, counterexample: a source rule with the id `""` — a rule that
*has* an id, a valid condition and a valid outcome, and is not disabled — is
nevertheless excluded by the load filter, because `rule.id &&` tests
truthiness and the empty string is falsy; the loaded rule set is empty. -/
theorem claim_C7_counterexample :
    RuleEngine.loadRules
        { rules := [], defaults := fallbackDefaults, aiConfig := .obj [], metadata := .obj [] }
        (.ok (.obj [("rules", .arr [.obj [("id", .str ""),
          ("condition", .obj [("field", .str "a"), ("op", .str "exists"), ("value", .bool true)]),
          ("outcome", .str "SAFE_ALLOW")]])])) =
      .ok { rules := [], defaults := fallbackDefaults, aiConfig := .obj [], metadata := .obj [] } := by
  decide

/-- Claim C7 witness: a three-entry source (priority 5, priority 10, and a
disabled entry) loads to the enabled entries sorted descending; the loaded
list is a permutation of the kept entries. -/
theorem claim_C7_witness :
    ([{ id := .str "high", name := .str "High", priority := .num 10,
        condition := .obj [("field", .str "signals.a"), ("op", .str "exists"), ("value", .bool true)],
        outcome := .str "SAFE_DENY", enabled := .undefined },
      { id := .str "low", name := .str "Low", priority := .num 5,
        condition := .obj [("field", .str "signals.a"), ("op", .str "exists"), ("value", .bool true)],
        outcome := .str "SAFE_ALLOW", enabled := .undefined }] : List RawRule).Perm
      ([.obj [("id", .str "low"), ("name", .str "Low"), ("priority", .num 5),
          ("condition", .obj [("field", .str "signals.a"), ("op", .str "exists"), ("value", .bool true)]),
          ("outcome", .str "SAFE_ALLOW")],
        .obj [("id", .str "high"), ("name", .str "High"), ("priority", .num 10),
          ("condition", .obj [("field", .str "signals.a"), ("op", .str "exists"), ("value", .bool true)]),
          ("outcome", .str "SAFE_DENY")]].map toRawRule) := by
  have h := claim_C7
    { rules := [], defaults := fallbackDefaults, aiConfig := .obj [], metadata := .obj [] }
    { rules :=
        [{ id := .str "high", name := .str "High", priority := .num 10,
           condition := .obj [("field", .str "signals.a"), ("op", .str "exists"), ("value", .bool true)],
           outcome := .str "SAFE_DENY", enabled := .undefined },
         { id := .str "low", name := .str "Low", priority := .num 5,
           condition := .obj [("field", .str "signals.a"), ("op", .str "exists"), ("value", .bool true)],
           outcome := .str "SAFE_ALLOW", enabled := .undefined }],
      defaults := fallbackDefaults, aiConfig := .obj [], metadata := .obj [] }
    (.obj [("rules", .arr
      [.obj [("id", .str "low"), ("name", .str "Low"), ("priority", .num 5),
          ("condition", .obj [("field", .str "signals.a"), ("op", .str "exists"), ("value", .bool true)]),
          ("outcome", .str "SAFE_ALLOW")],
       .obj [("id", .str "high"), ("name", .str "High"), ("priority", .num 10),
          ("condition", .obj [("field", .str "signals.a"), ("op", .str "exists"), ("value", .bool true)]),
          ("outcome", .str "SAFE_DENY")],
       .obj [("id", .str "off"), ("name", .str "Off"), ("priority", .num 99),
          ("condition", .obj [("field", .str "signals.a"), ("op", .str "exists"), ("value", .bool true)]),
          ("outcome", .str "SAFE_DENY"), ("enabled", .bool false)]])])
    [.obj [("id", .str "low"), ("name", .str "Low"), ("priority", .num 5),
        ("condition", .obj [("field", .str "signals.a"), ("op", .str "exists"), ("value", .bool true)]),
        ("outcome", .str "SAFE_ALLOW")],
     .obj [("id", .str "high"), ("name", .str "High"), ("priority", .num 10),
        ("condition", .obj [("field", .str "signals.a"), ("op", .str "exists"), ("value", .bool true)]),
        ("outcome", .str "SAFE_DENY")],
     .obj [("id", .str "off"), ("name", .str "Off"), ("priority", .num 99),
        ("condition", .obj [("field", .str "signals.a"), ("op", .str "exists"), ("value", .bool true)]),
        ("outcome", .str "SAFE_DENY"), ("enabled", .bool false)]]
    [.obj [("id", .str "low"), ("name", .str "Low"), ("priority", .num 5),
        ("condition", .obj [("field", .str "signals.a"), ("op", .str "exists"), ("value", .bool true)]),
        ("outcome", .str "SAFE_ALLOW")],
     .obj [("id", .str "high"), ("name", .str "High"), ("priority", .num 10),
        ("condition", .obj [("field", .str "signals.a"), ("op", .str "exists"), ("value", .bool true)]),
        ("outcome", .str "SAFE_DENY")]]
    (by decide) (by decide) (by decide) (by decide)
  exact h.2.1

/-- On a successful load, the defaults section is the config's `defaults`
when truthy and the GREY_ZONE fallback otherwise. -/
theorem loadRules_ok_defaults (st st' : EngineState) (config : Value)
    (hload : RuleEngine.loadRules st (.ok config) = .ok st') :
    st'.defaults =
      (if jsTruthy (getProp config "defaults") then getProp config "defaults"
       else fallbackDefaults) := by
  cases config with
  | undefined => simp [RuleEngine.loadRules] at hload
  | null => simp [RuleEngine.loadRules] at hload
  | bool b =>
      simp only [RuleEngine.loadRules] at hload
      split at hload
      · simp at hload
      · split at hload
        · simp at hload
        · simp only [Except.ok.injEq] at hload
          rw [← hload]
  | num n =>
      simp only [RuleEngine.loadRules] at hload
      split at hload
      · simp at hload
      · split at hload
        · simp at hload
        · simp only [Except.ok.injEq] at hload
          rw [← hload]
  | str s =>
      simp only [RuleEngine.loadRules] at hload
      split at hload
      · simp at hload
      · split at hload
        · simp at hload
        · simp only [Except.ok.injEq] at hload
          rw [← hload]
  | arr xs =>
      simp only [RuleEngine.loadRules] at hload
      split at hload
      · simp at hload
      · split at hload
        · simp at hload
        · simp only [Except.ok.injEq] at hload
          rw [← hload]
  | native d =>
      simp only [RuleEngine.loadRules] at hload
      split at hload
      · simp at hload
      · split at hload
        · simp at hload
        · simp only [Except.ok.injEq] at hload
          rw [← hload]
  | obj fields =>
      simp only [RuleEngine.loadRules] at hload
      split at hload
      · simp at hload
      · split at hload
        · simp at hload
        · simp only [Except.ok.injEq] at hload
          rw [← hload]

/-- Claim C9, counterexample: a configuration whose `defaults` section is
present but lacks `no_match_outcome` (`defaults: {}`) loads with
`this.defaults = {}` — because `config.defaults || fallback` only replaces a
falsy section — so the no-match default outcome is `undefined`, not
`GREY_ZONE`: evaluating with no rules yields outcome `undefined`. -/
theorem claim_C9_counterexample :
    RuleEngine.loadRules
        { rules := [], defaults := fallbackDefaults, aiConfig := .obj [], metadata := .obj [] }
        (.ok (.obj [("rules", .arr []), ("defaults", .obj [])])) =
      .ok { rules := [], defaults := .obj [], aiConfig := .obj [], metadata := .obj [] } ∧
    defaultOutcome { rules := [], defaults := .obj [], aiConfig := .obj [], metadata := .obj [] }
      = .undefined ∧
    RuleEngine.evaluate (fun _ _ => some false)
        { rules := [], defaults := .obj [], aiConfig := .obj [], metadata := .obj [] }
        (.obj [("request", .obj []), ("signals", .obj [])]) =
      .ok { outcome := .undefined, matchedRule := none, evaluationPath := [] } ∧
    Value.undefined ≠ .str "GREY_ZONE" := by
  refine ⟨by decide, by decide, by decide, by decide⟩

/-- Claim C9, amended: the `GREY_ZONE` fallback applies exactly when the
configuration's `defaults` section is absent or falsy; in that case the
default outcome is `GREY_ZONE` and an evaluation in which no rule matches
returns it.  (A *present* `defaults` object lacking `no_match_outcome`
instead yields an `undefined` default outcome — the counterexample.) -/
theorem claim_C9 (st st' : EngineState) (config : Value)
    (hload : RuleEngine.loadRules st (.ok config) = .ok st')
    (hdef : jsTruthy (getProp config "defaults") = false) :
    defaultOutcome st' = .str "GREY_ZONE" ∧
    (st'.rules = [] →
      ∀ (rt : String → String → Option Bool) (input : Value),
        jsTruthy input = true → typeofObject input = true →
        RuleEngine.evaluate rt st' input =
          .ok { outcome := .str "GREY_ZONE", matchedRule := none, evaluationPath := [] }) := by
  have hd : st'.defaults = fallbackDefaults := by
    rw [loadRules_ok_defaults st st' config hload, if_neg (by simp [hdef])]
  have hout : defaultOutcome st' = .str "GREY_ZONE" := by
    rw [defaultOutcome, hd]
    decide
  refine ⟨hout, ?_⟩
  intro hrules rt input h1 h2
  rw [RuleEngine.evaluate]
  simp only [h1, h2, Bool.not_true, Bool.or_self, Bool.false_or, if_neg]
  rw [hrules]
  simp [evalRules, hout]

/-- Claim C9 witness: loading a configuration with no `defaults` section
over a non-trivial previous state and evaluating a valid input with no
rules returns `GREY_ZONE`. -/
theorem claim_C9_witness :
    RuleEngine.evaluate (fun _ _ => some true)
        { rules := [], defaults := fallbackDefaults, aiConfig := .obj [], metadata := .obj [] }
        (.obj [("request", .obj []), ("signals", .obj [("s", .num 1)])]) =
      .ok { outcome := .str "GREY_ZONE", matchedRule := none, evaluationPath := [] } := by
  have h := claim_C9
    { rules := [{ id := .str "x", name := .undefined, priority := .undefined,
                  condition := .undefined, outcome := .str "SAFE_DENY", enabled := .undefined }],
      defaults := .obj [], aiConfig := .obj [], metadata := .obj [] }
    { rules := [], defaults := fallbackDefaults, aiConfig := .obj [], metadata := .obj [] }
    (.obj [("rules", .arr [])])
    (by decide) (by decide)
  exact h.2 rfl (fun _ _ => some true)
    (.obj [("request", .obj []), ("signals", .obj [("s", .num 1)])]) (by decide) (by decide)

/-- A key outside an own-field list looks up to `none`. -/
theorem lookupOwn_eq_none (fields : List (String × Value)) (k : String)
    (hk : k ∉ fields.map Prod.fst) : lookupOwn fields k = none := by
  induction fields with
  | nil => rfl
  | cons f fs ih =>
      obtain ⟨k', v⟩ := f
      rw [lookupOwn]
      rw [List.map_cons] at hk
      have hne : ¬ (k' = k) := fun h => hk (by simp [h])
      rw [if_neg hne]
      exact ih (fun h => hk (by simp [h]))

/-- Claim C8, counterexample: two failures of "segment absent or container
not a mapping ⇒ missing sentinel".  First, the key `toString`, absent from
the input's `signals` object, resolves through the prototype chain to
`Object.prototype.toString` — a truthy, non-null builtin — so `exists` with
value `false` does *not* match the path `signals.toString`.  Second, with
the non-mapping container `"hi"` at segment `a`, the path `a.length`
resolves to the number `2`. -/
theorem claim_C8_counterexample :
    resolvePath (.obj [("request", .obj []), ("signals", .obj [])]) "signals.toString"
      = .native "function toString() { [native code] }" ∧
    Value.native "function toString() { [native code] }" ≠ .undefined ∧
    evaluateCondition (fun _ _ => some false)
        (.obj [("field", .str "signals.toString"), ("op", .str "exists"), ("value", .bool false)])
        (.obj [("request", .obj []), ("signals", .obj [])]) = .ok false ∧
    resolvePath (.obj [("a", .str "hi")]) "a.length" = .num 2 := by
  refine ⟨by decide, by decide, ?_, by decide⟩
  rw [evaluateCondition_obj]
  decide

/-- Claim C8, amended: resolving any dot-separated string path never throws
(`getValueE` always returns `ok` on a string field); the missing sentinel
`undefined` is distinct from explicit `null` and from `false`; a key absent
both from a mapping's own fields and from the `Object.prototype` members it
inherits reads as the sentinel; and a condition whose path resolves to the
sentinel is matched by `exists` with value `false` and is not matched by
`eq` against any concrete (non-`undefined`) value.  The claim's clause
"segment absent or container not a mapping ⇒ missing" fails both for
inherited prototype members (`signals.toString`) and for string containers'
`length`/index properties — the counterexample. -/
theorem claim_C8 (rt : String → String → Option Bool) (input : Value) (path : String) :
    getValueE input (.str path) = .ok (resolvePath input path) ∧
    (Value.undefined ≠ .null ∧ Value.undefined ≠ .bool false) ∧
    (∀ (fields : List (String × Value)) (k : String),
      k ∉ fields.map Prod.fst → k ∉ objectProtoFields.map Prod.fst →
      getProp (.obj fields) k = .undefined) ∧
    (resolvePath input path = .undefined →
      evaluateCondition rt
          (.obj [("field", .str path), ("op", .str "exists"), ("value", .bool false)]) input
        = .ok true ∧
      (∀ v : Value, v ≠ .undefined →
        evaluateCondition rt
            (.obj [("field", .str path), ("op", .str "eq"), ("value", v)]) input
          = .ok false)) := by
  refine ⟨rfl, ⟨by decide, by decide⟩, ?_, ?_⟩
  · intro fields k hk hp
    simp [getProp, lookupOwn_eq_none fields k hk, protoChain,
      lookupOwn_eq_none objectProtoFields k hp]
  · intro hmiss
    constructor
    · rw [evaluateCondition_obj]
      simp [lookupField, jsTruthy, evaluateLeaf, getProp, lookupOwn, getValueE, hmiss,
        opLookup_exists_op, existsOp, jsStrictEq]
    · intro v hv
      rw [evaluateCondition_obj]
      have : jsStrictEq .undefined v = false := by
        cases v <;> simp_all [jsStrictEq]
      simp [lookupField, jsTruthy, evaluateLeaf, getProp, lookupOwn, getValueE, hmiss,
        opLookup_eq_op, this]

/-- Claim C8 witness: the genuinely missing path `signals.flag` (absent
from the input and from every prototype) is matched by `exists: false` and
not by `eq: 0`. -/
theorem claim_C8_witness :
    evaluateCondition (fun _ _ => some true)
        (.obj [("field", .str "signals.flag"), ("op", .str "exists"), ("value", .bool false)])
        (.obj [("request", .obj []), ("signals", .obj [])]) = .ok true ∧
    evaluateCondition (fun _ _ => some true)
        (.obj [("field", .str "signals.flag"), ("op", .str "eq"), ("value", .num 0)])
        (.obj [("request", .obj []), ("signals", .obj [])]) = .ok false := by
  have h := (claim_C8 (fun _ _ => some true)
    (.obj [("request", .obj []), ("signals", .obj [])]) "signals.flag").2.2.2 (by decide)
  exact ⟨h.1, h.2 (.num 0) (by decide)⟩

/-- Claim C10, counterexample: the path `signals.toString` is absent from
the input, yet the program does not test the string `"undefined"`: the path
resolves to the inherited `Object.prototype.toString`, and `String(...)` of
that builtin is `"function toString() { [native code] }"`.  The regex
engine is instantiated at the pattern `"^undefined$"`, which matches the
subject `"undefined"` and nothing else — exactly ECMA regex semantics for
this pattern — and the condition evaluates to `false`, refuting "any
pattern that matches the string `undefined` matches a condition whose field
path is absent from the input". -/
theorem claim_C10_counterexample :
    (fun (p s : String) => some (p == "^undefined$" && s == "undefined"))
        "^undefined$" "undefined" = some true ∧
    resolvePath (.obj [("request", .obj []), ("signals", .obj [])]) "signals.toString"
      ≠ .undefined ∧
    evaluateCondition (fun p s => some (p == "^undefined$" && s == "undefined"))
        (.obj [("field", .str "signals.toString"), ("op", .str "regex"),
          ("value", .str "^undefined$")])
        (.obj [("request", .obj []), ("signals", .obj [])]) = .ok false := by
  refine ⟨by decide, by decide, ?_⟩
  rw [evaluateCondition_obj]
  decide

/-- Claim C10, amended: the `regex` operator coerces the resolved value
with `String(...)`, so a field whose path *resolves to* `undefined` is
tested as the literal string `"undefined"`: any pattern the regex engine
accepts on `"undefined"` matches such a condition — unlike `eq`, which
never matches a missing field.  A path merely absent from the input need
not resolve to `undefined`: inherited prototype members such as `toString`
resolve to builtin functions and are tested as their function source
strings (the counterexample). -/
theorem claim_C10 (rt : String → String → Option Bool) (input : Value) (path pat : String)
    (hmiss : resolvePath input path = .undefined)
    (hmatch : rt pat "undefined" = some true) :
    evaluateCondition rt
        (.obj [("field", .str path), ("op", .str "regex"), ("value", .str pat)]) input
      = .ok true ∧
    (∀ v : Value, v ≠ .undefined →
      evaluateCondition rt
          (.obj [("field", .str path), ("op", .str "eq"), ("value", v)]) input
        = .ok false) := by
  constructor
  · rw [evaluateCondition_obj]
    simp [lookupField, jsTruthy, evaluateLeaf, getProp, lookupOwn, getValueE, hmiss,
      opLookup_regex_op, regexOp, valueToString, hmatch]
  · intro v hv
    rw [evaluateCondition_obj]
    have : jsStrictEq .undefined v = false := by
      cases v <;> simp_all [jsStrictEq]
    simp [lookupField, jsTruthy, evaluateLeaf, getProp, lookupOwn, getValueE, hmiss,
      opLookup_eq_op, this]

/-- Claim C10 witness: the pattern `".*"` matches a condition on the
genuinely missing path `signals.absent`. -/
theorem claim_C10_witness :
    evaluateCondition (fun p s => some (p == ".*" && s == "undefined"))
        (.obj [("field", .str "signals.absent"), ("op", .str "regex"), ("value", .str ".*")])
        (.obj [("request", .obj []), ("signals", .obj [("present", .num 1)])]) = .ok true := by
  exact (claim_C10 (fun p s => some (p == ".*" && s == "undefined"))
    (.obj [("request", .obj []), ("signals", .obj [("present", .num 1)])])
    "signals.absent" ".*" (by decide) (by decide)).1
